import Mathlib

/-!
# Pocket Scout — verification of the candle/signal core

Shallow embedding of the Pocket Scout signal engine (candle aggregation,
circular buffer, Smart-Money-Concepts pattern library, and the v12 / v14 /
v17 decision engines) together with proofs of the behavioural claims made
by the specification.

Conventions used throughout:
* JavaScript numbers are modelled as `ℚ`.  At the few places where the
  source can produce `NaN` (an unguarded `0/0`) or compares against the
  maximum of a possibly-empty list (`-Infinity`), the embedding makes the
  special value explicit via the `JNum` type below; every such place is
  annotated with a comment.
* `Math.floor` is `Int.floor`, `Math.round` is `jsRound` (round half
  towards `+∞`, exactly JavaScript's behaviour), `x || d` guards on a
  denominator become an explicit zero test.
* Millisecond timestamps are `ℤ`.
* Human-readable payloads of the source (reason strings, log text,
  `indicatorValues` display metadata) are omitted: no branch of the code
  reads them back.
-/

/-- JavaScript `Math.round`: round half away from zero towards `+∞`. -/
def jsRound (q : ℚ) : ℤ := ⌊q + 1/2⌋

/-- A JavaScript number that may be `NaN` or `±Infinity`.  Used only
where the source actually produces such a value (an unguarded division
whose denominator can be zero). -/
inductive JNum where
  | num (q : ℚ)
  | nan
  | pinf
  | ninf
  deriving DecidableEq

/-- `x > q` for a possibly-special `x` (false for `NaN`, as in JS). -/
def JNum.gtQ : JNum → ℚ → Bool
  | .num x, q => x > q
  | .nan, _ => false
  | .pinf, _ => true
  | .ninf, _ => false

/-- `x < q` for a possibly-special `x` (false for `NaN`, as in JS). -/
def JNum.ltQ : JNum → ℚ → Bool
  | .num x, q => x < q
  | .nan, _ => false
  | .pinf, _ => false
  | .ninf, _ => true

/-- `x ≥ q` for a possibly-special `x` (false for `NaN`, as in JS). -/
def JNum.geQ : JNum → ℚ → Bool
  | .num x, q => x ≥ q
  | .nan, _ => false
  | .pinf, _ => true
  | .ninf, _ => false

/-- JavaScript division `a / b` with its special values made explicit:
`0/0 = NaN`, `a/0 = ±Infinity` for `a ≠ 0`. -/
def jsDivJ (a b : ℚ) : JNum :=
  if b = 0 then (if a = 0 then .nan else if a > 0 then .pinf else .ninf)
  else .num (a / b)

/-- `Math.max` over a list of rationals.  JavaScript returns `-Infinity`
on an empty list; every call site below guards non-emptiness, so the
empty case (defaulted to `0`) is unreachable. -/
def listMax : List ℚ → ℚ
  | [] => 0
  | x :: xs => xs.foldl max x

/-- `Math.min` over a list of rationals (see `listMax`). -/
def listMin : List ℚ → ℚ
  | [] => 0
  | x :: xs => xs.foldl min x

/-!
## Circular buffer (`circular-buffer.js`, `createCircularBuffer`;
`createLocalBuffer` in the content script is the same algorithm plus a
result cache that is invalidated on every write, hence observationally
identical).

The JS backing array (with holes) is modelled as `ℕ → Option α`.
-/

structure CBuf (α : Type) where
  capacity : ℕ
  buf : ℕ → Option α
  size : ℕ
  head : ℕ

namespace CBuf

/-- `createCircularBuffer(capacity)`: fresh state. -/
def empty (α : Type) (capacity : ℕ) : CBuf α :=
  ⟨capacity, fun _ => none, 0, 0⟩

/-- `add(candle)`: write at `head`, advance `head` modulo `capacity`,
grow `size` up to `capacity`. -/
def add (b : CBuf α) (x : α) : CBuf α :=
  { b with
    buf := fun j => if j = b.head then some x else b.buf j
    head := (b.head + 1) % b.capacity
    size := if b.size < b.capacity then b.size + 1 else b.size }

/-- `getLatest()`: the slot before `head` (JS `(head - 1 + capacity) %
capacity`, written with `+ capacity` first so ℕ subtraction is exact). -/
def getLatest (b : CBuf α) : Option α :=
  if b.size = 0 then none
  else b.buf ((b.head + b.capacity - 1) % b.capacity)

/-- `updateLast(data)`: merge into the slot before `head`.  The JS object
spread `{...old, ...data}` is modelled by applying `f` to the stored
value; an unoccupied slot (impossible when `size > 0` in states reached
from `empty`) is left untouched. -/
def updateLast (b : CBuf α) (f : α → α) : CBuf α :=
  if b.size = 0 then b
  else
    let lastIndex := (b.head + b.capacity - 1) % b.capacity
    match b.buf lastIndex with
    | some x => { b with buf := fun j => if j = lastIndex then some (f x) else b.buf j }
    | none => b

/-- `getAll()`: oldest-to-newest snapshot of the `size` occupied slots,
starting at JS `(head - size + capacity) % capacity`. -/
def getAll (b : CBuf α) : List (Option α) :=
  if b.size = 0 then []
  else (List.range b.size).map
    (fun i => b.buf (((b.head + b.capacity - b.size) % b.capacity + i) % b.capacity))

/-- Insert a whole list of elements with `add`, left to right. -/
def insertAll (b : CBuf α) (L : List α) : CBuf α := L.foldl add b

theorem insertAll_append (b : CBuf α) (L : List α) (x : α) :
    insertAll b (L ++ [x]) = (insertAll b L).add x := by
  simp [insertAll, List.foldl_append]

/-- State invariant after inserting `L` into a fresh buffer: the counters
take their closed form and each of the last `capacity` insertions is
still stored at its residue slot. -/
theorem insertAll_spec (α : Type) (cap : ℕ) (L : List α) :
    (insertAll (empty α cap) L).capacity = cap ∧
    (insertAll (empty α cap) L).size = min L.length cap ∧
    (insertAll (empty α cap) L).head = L.length % cap ∧
    ∀ m, m < L.length → L.length ≤ m + cap →
      (insertAll (empty α cap) L).buf (m % cap) = L[m]? := by
  induction L using List.reverseRecOn with
  | nil =>
    refine ⟨rfl, by simp [insertAll, empty], by simp [insertAll, empty], ?_⟩
    intro m hm
    exact absurd hm (by simp)
  | append_singleton l a ih =>
    obtain ⟨hcap, hsize, hhead, hbuf⟩ := ih
    rw [insertAll_append]
    refine ⟨hcap, ?_, ?_, ?_⟩
    · simp only [add, hsize, hcap, List.length_append, List.length_singleton]
      split <;> omega
    · simp only [add, hhead, hcap, List.length_append, List.length_singleton,
        Nat.mod_add_mod]
    · intro m hm hle
      simp only [List.length_append, List.length_singleton] at hm hle
      simp only [add, hcap, hhead]
      by_cases hcase : m = l.length
      · subst hcase
        simp [List.getElem?_concat_length]
      · have hmlt : m < l.length := by omega
        have hne : m % cap ≠ l.length % cap := by
          intro heq
          have hmod : Nat.ModEq cap m l.length := heq
          have hdvd : (cap : ℤ) ∣ (l.length : ℤ) - (m : ℤ) := hmod.dvd
          have hpos : (0 : ℤ) < (l.length : ℤ) - (m : ℤ) := by omega
          have hge := Int.le_of_dvd hpos hdvd
          omega
        rw [if_neg hne]
        rw [hbuf m hmlt (by omega)]
        rw [List.getElem?_append_left hmlt]

theorem getAll_length (b : CBuf α) : b.getAll.length = b.size := by
  rw [getAll]
  split
  · simp [*]
  · simp

theorem getAll_getElem? (b : CBuf α) (hne : b.size ≠ 0) (i : ℕ) (hi : i < b.size) :
    b.getAll[i]? =
      some (b.buf (((b.head + b.capacity - b.size) % b.capacity + i) % b.capacity)) := by
  rw [getAll, if_neg hne, List.getElem?_map, List.getElem?_range hi]
  rfl

/-- Claim C5 (ring-buffer capacity invariant): after inserting
`capacity + k` elements (`k > 0`) into a fresh circular buffer, `getAll`
returns exactly the most recent `capacity` insertions, in order. -/
theorem claim_C5_ring_buffer_retains_last_capacity (α : Type) (cap k : ℕ) (L : List α)
    (hk : 0 < k) (hlen : L.length = cap + k) :
    (insertAll (empty α cap) L).getAll.length = cap ∧
    (insertAll (empty α cap) L).getAll = (L.drop k).map some := by
  obtain ⟨hcap, hsize, hhead, hbuf⟩ := insertAll_spec α cap L
  rcases Nat.eq_zero_or_pos cap with hc0 | hcpos
  · subst hc0
    have hsz : (insertAll (empty α 0) L).size = 0 := by rw [hsize]; omega
    have hall : (insertAll (empty α 0) L).getAll = [] := by
      simp [getAll, hsz]
    have hdrop : L.drop k = [] := by
      apply List.drop_eq_nil_of_le
      omega
    simp [hall, hdrop]
  · have hsz : (insertAll (empty α cap) L).size = cap := by rw [hsize]; omega
    suffices hmain : (insertAll (empty α cap) L).getAll = (L.drop k).map some by
      refine ⟨?_, hmain⟩
      rw [hmain]
      simp [hlen]
    apply List.ext_getElem?
    intro i
    by_cases hi : i < cap
    · have hgA := getAll_getElem? (insertAll (empty α cap) L) (by omega) i (by omega)
      have hidx : ((((insertAll (empty α cap) L).head + (insertAll (empty α cap) L).capacity -
          (insertAll (empty α cap) L).size) % (insertAll (empty α cap) L).capacity + i) %
          (insertAll (empty α cap) L).capacity) = (k + i) % cap := by
        rw [hcap, hhead, hsz, hlen]
        have h1 : (cap + k) % cap + cap - cap = (cap + k) % cap := by omega
        rw [h1, Nat.mod_mod_of_dvd _ dvd_rfl, Nat.mod_add_mod, Nat.add_assoc,
          Nat.add_mod_left]
      rw [hidx] at hgA
      rw [hgA, hbuf (k + i) (by omega) (by omega)]
      rw [List.getElem?_map, List.getElem?_drop]
      have hki : k + i < L.length := by omega
      rw [List.getElem?_eq_getElem hki]
      simp
    · have h1 : (insertAll (empty α cap) L).getAll[i]? = none := by
        apply List.getElem?_eq_none
        rw [getAll_length, hsz]
        omega
      have h2 : ((L.drop k).map some)[i]? = none := by
        apply List.getElem?_eq_none
        simp [hlen]
        omega
      rw [h1, h2]

end CBuf

/-- Witness for C5 at capacity 3 with 5 insertions. -/
theorem claim_C5_witness :
    (0 < 2 ∧ ([0, 1, 2, 3, 4] : List ℕ).length = 3 + 2) ∧
    (CBuf.insertAll (CBuf.empty ℕ 3) [0, 1, 2, 3, 4]).getAll =
      (([0, 1, 2, 3, 4] : List ℕ).drop 2).map some :=
  ⟨⟨by decide, by decide⟩,
    (CBuf.claim_C5_ring_buffer_retains_last_capacity ℕ 3 2 [0, 1, 2, 3, 4]
      (by decide) (by decide)).2⟩

/-!
## Candles and the aggregator (`updateCandlesForPair`, content script)

A candle is `{ t, o, h, l, c }`.  The struct is generic in the price type:
the claims about well-formed prices instantiate it at `ℚ`, the tick-loop
claim (C9) instantiates it at the full JavaScript value type `JSPrice`.
-/

inductive TradeAction where
  | BUY
  | SELL
  deriving DecidableEq

inductive Outcome where
  | WIN
  | LOSS
  deriving DecidableEq

structure CandleG (α : Type) where
  t : ℤ
  o : α
  h : α
  l : α
  c : α
  deriving DecidableEq

abbrev Candle := CandleG ℚ

/-- `Math.floor(timestamp / 60000) * 60000` — the 1-minute bucket start. -/
def bucketOf (timestamp : ℤ) : ℤ := Int.fdiv timestamp 60000 * 60000

/-- `updateCandlesForPair(pair, price, timestamp)` acting on the pair's
circular buffer (the `pairOhlcM1` snapshot it also refreshes is exactly
`buffer.getAll()`).  Generic in the ordering operations so it can be read
back at `ℚ` (`max`/`min`) or at the JS value type (`Math.max`/`Math.min`
semantics). -/
def updateCandlesForPair {α : Type} (maxF minF : α → α → α)
    (buffer : CBuf (CandleG α)) (price : α) (timestamp : ℤ) : CBuf (CandleG α) :=
  let minute := bucketOf timestamp
  match buffer.getLatest with
  | none => buffer.add ⟨minute, price, price, price, price⟩
  | some lastCandle =>
    if lastCandle.t ≠ minute then
      buffer.add ⟨minute, price, price, price, price⟩
    else
      buffer.updateLast (fun lc =>
        { lc with h := maxF lastCandle.h price, l := minF lastCandle.l price, c := price })

/-- Observer: does this tick take the `add` (new candle) branch? -/
def tickCreatesCandle {α : Type} (buffer : CBuf (CandleG α)) (timestamp : ℤ) : Bool :=
  match buffer.getLatest with
  | none => true
  | some lastCandle => lastCandle.t ≠ bucketOf timestamp

/-- Process a list of `(price, timestamp)` ticks through the aggregator,
also counting how many new candles were pushed. -/
def processTicks {α : Type} (maxF minF : α → α → α) :
    CBuf (CandleG α) → List (α × ℤ) → CBuf (CandleG α) × ℕ
  | b, [] => (b, 0)
  | b, (p, ts) :: rest =>
    let created := tickCreatesCandle b ts
    let next := processTicks maxF minF (updateCandlesForPair maxF minF b p ts) rest
    (next.1, (if created then 1 else 0) + next.2)

/-- The candle built by one first tick at price `p` followed by the
updates of `rest` (open fixed, high/low extended, close replaced). -/
def aggregateCandle (m : ℤ) (p : ℚ) (rest : List ℚ) : Candle :=
  rest.foldl (fun cd q => { cd with h := max cd.h q, l := min cd.l q, c := q })
    ⟨m, p, p, p, p⟩

/-- Well-formedness of a buffer state: `head` is a valid slot (this holds
for every state the JS code can reach; it forces `capacity ≥ 1`). -/
def CBuf.WF (b : CBuf α) : Prop := b.head < b.capacity

/-- The candle invariant of the claim. -/
def candleInv (cd : Candle) : Prop := max cd.o cd.c ≤ cd.h ∧ cd.l ≤ min cd.o cd.c

/-- Every occupied slot of the buffer satisfies the candle invariant. -/
def slotInv (b : CBuf Candle) : Prop :=
  ∀ i cd, b.buf i = some cd → candleInv cd

theorem CBuf.WF.add {α : Type} {b : CBuf α} (hWF : b.WF) (x : α) : (b.add x).WF := by
  unfold CBuf.WF CBuf.add at *
  exact Nat.mod_lt _ (by omega)

theorem CBuf.getLatest_add {α : Type} {b : CBuf α} (hWF : b.WF) (x : α) :
    (b.add x).getLatest = some x := by
  have hcap : 0 < b.capacity := by
    have := hWF
    unfold CBuf.WF at this
    omega
  unfold CBuf.getLatest CBuf.add
  have hsz : ¬ (if b.size < b.capacity then b.size + 1 else b.size) = 0 := by
    split <;> omega
  simp only [hsz, if_false]
  have hidx : ((b.head + 1) % b.capacity + b.capacity - 1) % b.capacity = b.head := by
    by_cases hh : b.head + 1 < b.capacity
    · rw [Nat.mod_eq_of_lt hh]
      have h2 : b.head + 1 + b.capacity - 1 = b.head + b.capacity := by omega
      rw [h2, Nat.add_mod_right, Nat.mod_eq_of_lt hWF]
    · have hh2 : b.head + 1 = b.capacity := by
        have := hWF
        unfold CBuf.WF at this
        omega
      rw [hh2, Nat.mod_self]
      have h3 : 0 + b.capacity - 1 = b.capacity - 1 := by omega
      rw [h3, Nat.mod_eq_of_lt (by omega)]
      omega
  rw [hidx]
  simp

theorem CBuf.WF.updateLast {α : Type} {b : CBuf α} (hWF : b.WF) (f : α → α) :
    (b.updateLast f).WF := by
  unfold CBuf.updateLast
  split
  · exact hWF
  · rcases h : b.buf ((b.head + b.capacity - 1) % b.capacity) with _ | x <;>
      simp only [h] <;> exact hWF

theorem CBuf.getLatest_updateLast {α : Type} (b : CBuf α) (f : α → α) (x : α)
    (h : b.getLatest = some x) : (b.updateLast f).getLatest = some (f x) := by
  have hsz : ¬ b.size = 0 := by
    intro h0
    rw [CBuf.getLatest, if_pos h0] at h
    exact Option.noConfusion h
  rw [CBuf.getLatest, if_neg hsz] at h
  unfold CBuf.updateLast
  rw [if_neg hsz]
  simp only [h]
  rw [CBuf.getLatest]
  simp only [hsz, if_false]
  simp

/-- Core induction: once the latest candle sits in bucket `m`, further
ticks in bucket `m` never push a candle, only update the latest one. -/
theorem processTicks_same_bucket (ticks : List (ℚ × ℤ)) (m : ℤ) :
    ∀ (b : CBuf Candle) (cd : Candle), b.WF →
    (∀ tk ∈ ticks, bucketOf tk.2 = m) →
    b.getLatest = some cd → cd.t = m →
    (processTicks max min b ticks).2 = 0 ∧
    (processTicks max min b ticks).1.getLatest =
      some (ticks.foldl (fun cd q =>
        { cd with h := max cd.h q.1, l := min cd.l q.1, c := q.1 }) cd) ∧
    (processTicks max min b ticks).1.WF ∧
    (slotInv b → candleInv cd → slotInv (processTicks max min b ticks).1) := by
  induction ticks with
  | nil =>
    intro b cd hWF _ hlatest hcd
    exact ⟨rfl, by simpa [processTicks] using hlatest, hWF, fun h _ => h⟩
  | cons tk rest ih =>
    intro b cd hWF hbkt hlatest hcd
    obtain ⟨p, ts⟩ := tk
    have hb : bucketOf ts = m := hbkt (p, ts) (List.mem_cons_self _ _)
    have hnc : tickCreatesCandle b ts = false := by
      unfold tickCreatesCandle
      rw [hlatest]
      simp [hb, hcd]
    set f : Candle → Candle := fun lc =>
      { lc with h := max cd.h p, l := min cd.l p, c := p } with hf
    have hstep : updateCandlesForPair max min b p ts = b.updateLast f := by
      unfold updateCandlesForPair
      rw [hlatest]
      simp only [hb, hcd]
      simp
    have hlat' : (b.updateLast f).getLatest = some (f cd) :=
      CBuf.getLatest_updateLast b f cd hlatest
    have hWF' : (b.updateLast f).WF := CBuf.WF.updateLast hWF f
    have hfcd : (f cd).t = m := by simp [hf, hcd]
    have hrest := ih (b.updateLast f) (f cd) hWF'
      (fun tk htk => hbkt tk (List.mem_cons_of_mem _ htk)) hlat' hfcd
    refine ⟨?_, ?_, ?_, ?_⟩
    · show (processTicks max min b ((p, ts) :: rest)).2 = 0
      unfold processTicks
      rw [hnc]
      simp only [if_false, Bool.false_eq_true]
      rw [hstep]
      simpa using hrest.1
    · show (processTicks max min b ((p, ts) :: rest)).1.getLatest = _
      unfold processTicks
      rw [hstep]
      simp only []
      rw [hrest.2.1]
      rfl
    · unfold processTicks
      rw [hstep]
      exact hrest.2.2.1
    · intro hinv hcdinv
      unfold processTicks
      rw [hstep]
      apply hrest.2.2.2
      · -- updateLast with f preserves slot invariant
        intro i x hx
        unfold CBuf.updateLast at hx
        by_cases hsz : b.size = 0
        · rw [if_pos hsz] at hx
          exact hinv i x hx
        · rw [if_neg hsz] at hx
          set li := (b.head + b.capacity - 1) % b.capacity with hli
          rcases hbuf : b.buf li with _ | y
          · simp only [← hli, hbuf] at hx
            exact hinv i x hx
          · simp only [← hli, hbuf] at hx
            by_cases hi : i = li
            · rw [if_pos hi] at hx
              -- the stored value y is exactly cd (both read the same slot)
              have hy : y = cd := by
                rw [CBuf.getLatest, if_neg hsz, ← hli, hbuf] at hlatest
                exact Option.some.inj hlatest
              obtain ⟨h1, h2⟩ := hcdinv
              have hx' : x = f y := (Option.some.inj hx).symm
              subst hy
              rw [hx']
              constructor
              · simp only [hf]
                simp only [max_le_iff] at h1 ⊢
                constructor
                · exact le_max_of_le_left h1.1
                · exact le_max_right _ _
              · simp only [hf]
                simp only [le_min_iff] at h2 ⊢
                constructor
                · exact min_le_of_left_le h2.1
                · exact min_le_right _ _
            · rw [if_neg hi] at hx
              exact hinv i x hx
      · -- the updated candle keeps the invariant
        obtain ⟨h1, h2⟩ := hcdinv
        constructor
        · simp only [hf]
          simp only [max_le_iff] at h1 ⊢
          exact ⟨le_max_of_le_left h1.1, le_max_right _ _⟩
        · simp only [hf]
          simp only [le_min_iff] at h2 ⊢
          exact ⟨min_le_of_left_le h2.1, min_le_right _ _⟩

/-- Claim C4 (aggregator idempotence): ticks that all fall in one
1-minute bucket push at most one candle (the first tick opens it with
`o=h=l=c=price`, later ticks only extend `h`, shrink `l` and replace
`c`), and every stored candle keeps `h ≥ max(o,c)` and `l ≤ min(o,c)`. -/
theorem claim_C4_aggregator_one_candle_per_bucket
    (b : CBuf Candle) (ticks : List (ℚ × ℤ)) (m : ℤ)
    (hWF : b.WF) (hbkt : ∀ tk ∈ ticks, bucketOf tk.2 = m) (hinv : slotInv b) :
    (processTicks max min b ticks).2 ≤ 1 ∧
    slotInv (processTicks max min b ticks).1 ∧
    (∀ p ts rest, ticks = (p, ts) :: rest → tickCreatesCandle b ts = true →
      (processTicks max min b ticks).1.getLatest =
        some (aggregateCandle m p (rest.map Prod.fst))) := by
  rcases ticks with _ | ⟨⟨p, ts⟩, rest⟩
  · exact ⟨by simp [processTicks], by simpa [processTicks] using hinv,
      fun p ts rest h => by simp at h⟩
  · have hb : bucketOf ts = m := hbkt (p, ts) (List.mem_cons_self _ _)
    by_cases hcr : tickCreatesCandle b ts = true
    · -- first tick opens the candle, the rest stay in the update branch
      have hstep : updateCandlesForPair max min b p ts =
          b.add ⟨m, p, p, p, p⟩ := by
        unfold tickCreatesCandle at hcr
        unfold updateCandlesForPair
        rcases hlat : b.getLatest with _ | cd
        · simp only [hlat, hb]
        · rw [hlat] at hcr
          simp only [decide_eq_true_eq] at hcr
          rw [hb] at hcr
          simp only [hlat, hb]
          simp [hcr]
      have hWF' : (b.add (⟨m, p, p, p, p⟩ : Candle)).WF := CBuf.WF.add hWF _
      have hlat' := CBuf.getLatest_add hWF (⟨m, p, p, p, p⟩ : Candle)
      have hinv' : slotInv (b.add ⟨m, p, p, p, p⟩) := by
        intro i x hx
        unfold CBuf.add at hx
        simp only [] at hx
        by_cases hi : i = b.head
        · rw [if_pos hi] at hx
          cases Option.some.inj hx
          exact ⟨by simp, by simp⟩
        · rw [if_neg hi] at hx
          exact hinv i x hx
      have hrest := processTicks_same_bucket rest m (b.add ⟨m, p, p, p, p⟩)
        ⟨m, p, p, p, p⟩ hWF' (fun tk htk => hbkt tk (List.mem_cons_of_mem _ htk))
        hlat' rfl
      refine ⟨?_, ?_, ?_⟩
      · unfold processTicks
        rw [hcr, hstep]
        simp only [if_true]
        have := hrest.1
        omega
      · unfold processTicks
        rw [hstep]
        exact hrest.2.2.2 hinv' ⟨by simp, by simp⟩
      · intro p' ts' rest' heq _
        cases heq
        unfold processTicks
        rw [hstep]
        simp only []
        rw [hrest.2.1]
        unfold aggregateCandle
        rw [List.foldl_map]
    · -- the buffer already holds the bucket's candle: zero pushes
      have hcr' : tickCreatesCandle b ts = false := by
        simpa using hcr
      rcases hlat : b.getLatest with _ | cd
      · exfalso
        unfold tickCreatesCandle at hcr'
        rw [hlat] at hcr'
        exact Bool.noConfusion hcr'
      · have hcd : cd.t = m := by
          unfold tickCreatesCandle at hcr'
          rw [hlat] at hcr'
          simp only [decide_eq_false_iff_not, not_not] at hcr'
          rw [hcr', hb]
        have hcdinv : candleInv cd := by
          have hsz : ¬ b.size = 0 := by
            intro h0
            rw [CBuf.getLatest, if_pos h0] at hlat
            exact Option.noConfusion hlat
          rw [CBuf.getLatest, if_neg hsz] at hlat
          exact hinv _ _ hlat
        have hall := processTicks_same_bucket ((p, ts) :: rest) m b cd hWF hbkt
          hlat hcd
        refine ⟨by omega, hall.2.2.2 hinv hcdinv, ?_⟩
        intro p' ts' rest' heq hcr2
        cases heq
        rw [hcr2] at hcr'
        exact Bool.noConfusion hcr'

/-- Witness for C4: two ticks inside minute bucket 0 on a fresh
2000-capacity buffer push at most one candle. -/
theorem claim_C4_witness :
    (processTicks max min (CBuf.empty Candle 2000)
      [((11 : ℚ)/10, 30000), ((12 : ℚ)/10, 45000)]).2 ≤ 1 :=
  (claim_C4_aggregator_one_candle_per_bucket (CBuf.empty Candle 2000)
    [((11 : ℚ)/10, 30000), ((12 : ℚ)/10, 45000)] 0
    (by simp [CBuf.WF, CBuf.empty])
    (by decide)
    (fun i cd h => Option.noConfusion h)).1

/-!
## Signal lifecycle (`finalizeSignal`, content script lines 598-627)

`pairLastPrices[pair]` is passed in as `lastPrice`; the aggregate
counters are gathered in `Stats`.  The external `ProjectNexus.train`
callback touches only the engine-state map, not these counters, and is
therefore not part of this state.
-/

structure Signal where
  action : Option TradeAction
  confidence : ℤ
  duration : ℤ
  timestamp : ℤ
  entryPrice : Option ℚ
  result : Option Outcome
  exitPrice : Option ℚ
  deriving DecidableEq

structure Stats where
  total : ℕ
  wins : ℕ
  losses : ℕ
  highConfTotal : ℕ
  highConfWins : ℕ
  highConfLosses : ℕ
  consecutiveLosses : ℕ
  deriving DecidableEq

def MIN_CONFIDENCE_PERCENT : ℤ := 70

/-- `finalizeSignal(pair, signal)`.  Returns the (possibly updated)
signal and counters. -/
def finalizeSignal (lastPrice : Option ℚ) (signal : Signal) (stats : Stats) :
    Signal × Stats :=
  match signal.result, lastPrice, signal.entryPrice with
  | some _, _, _ => (signal, stats)
  | none, none, _ => (signal, stats)
  | none, some _, none => (signal, stats)
  | none, some lp, some ep =>
    let isWin : Bool :=
      (signal.action == some TradeAction.BUY && decide (lp > ep)) ||
      (signal.action == some TradeAction.SELL && decide (lp < ep))
    let signal' := { signal with
      result := some (if isWin then Outcome.WIN else Outcome.LOSS)
      exitPrice := some lp }
    let stats' :=
      if isWin then { stats with wins := stats.wins + 1, consecutiveLosses := 0 }
      else { stats with losses := stats.losses + 1,
                        consecutiveLosses := stats.consecutiveLosses + 1 }
    let stats'' :=
      if signal.confidence ≥ MIN_CONFIDENCE_PERCENT then
        (if isWin then { stats' with highConfWins := stats'.highConfWins + 1 }
         else { stats' with highConfLosses := stats'.highConfLosses + 1 })
      else stats'
    (signal', stats'')

/-- Claim C8 (finalization is an idempotent, direction-correct no-op
gate): resolved signals and missing prices leave everything untouched;
otherwise the result is `WIN` exactly when the exit price is beyond the
entry price in the signal's direction, and the signal is never mutated
again. -/
theorem claim_C8_finalize_idempotent :
    (∀ lp (s : Signal) st, s.result ≠ none → finalizeSignal lp s st = (s, st)) ∧
    (∀ (s : Signal) st, finalizeSignal none s st = (s, st)) ∧
    (∀ lp (s : Signal) st, s.entryPrice = none → finalizeSignal lp s st = (s, st)) ∧
    (∀ (p e : ℚ) (s : Signal) st, s.result = none → s.entryPrice = some e →
      (finalizeSignal (some p) s st).1.result =
        some (if (s.action = some TradeAction.BUY ∧ e < p) ∨
                 (s.action = some TradeAction.SELL ∧ p < e)
              then Outcome.WIN else Outcome.LOSS)) ∧
    (∀ (p e : ℚ) (s : Signal) st, s.result = none → s.entryPrice = some e →
      ∀ lp' st', finalizeSignal lp' (finalizeSignal (some p) s st).1 st' =
        ((finalizeSignal (some p) s st).1, st')) := by
  refine ⟨?_, ?_, ?_, ?_, ?_⟩
  · intro lp s st hr
    unfold finalizeSignal
    rcases hres : s.result with _ | r
    · exact absurd hres hr
    · rcases lp with _ | v <;> rcases s.entryPrice with _ | e <;> rfl
  · intro s st
    unfold finalizeSignal
    rcases s.result with _ | r <;> rfl
  · intro lp s st he
    unfold finalizeSignal
    rcases s.result with _ | r <;> rcases lp with _ | v <;> rw [he]
  · intro p e s st hr he
    obtain ⟨act, conf, dur, tsp, entry, res, exit⟩ := s
    simp only [] at hr he
    subst hr
    subst he
    by_cases hwin : (act = some TradeAction.BUY ∧ e < p) ∨
        (act = some TradeAction.SELL ∧ p < e)
    · rw [if_pos hwin]
      have hbool : (act == some TradeAction.BUY && decide (p > e) ||
          act == some TradeAction.SELL && decide (p < e)) = true := by
        rcases hwin with ⟨ha, hlt⟩ | ⟨ha, hlt⟩ <;> simp [ha, hlt]
      simp [finalizeSignal, hbool]
    · rw [if_neg hwin]
      have hbool : (act == some TradeAction.BUY && decide (p > e) ||
          act == some TradeAction.SELL && decide (p < e)) = false := by
        rcases ha : act with _ | a
        · simp
        · cases a
          · have h1 : ¬ e < p := fun hlt => hwin (Or.inl ⟨ha, hlt⟩)
            simp [h1]
          · have h1 : ¬ p < e := fun hlt => hwin (Or.inr ⟨ha, hlt⟩)
            simp [h1]
      simp [finalizeSignal, hbool]
  · intro p e s st hr he lp' st'
    obtain ⟨act, conf, dur, tsp, entry, res, exit⟩ := s
    simp only [] at hr he
    subst hr
    subst he
    have hfst : (finalizeSignal (some p)
        ⟨act, conf, dur, tsp, some e, none, exit⟩ st).1 =
        { action := act, confidence := conf, duration := dur, timestamp := tsp,
          entryPrice := some e,
          result := some (if (act == some TradeAction.BUY && decide (p > e) ||
            act == some TradeAction.SELL && decide (p < e)) then Outcome.WIN
            else Outcome.LOSS),
          exitPrice := some p } := rfl
    rw [hfst]
    rcases lp' with _ | v <;> rfl

/-- Witness for C8: a pending BUY signal at entry 1, exit 2 resolves to
WIN and a second finalization is a no-op. -/
theorem claim_C8_witness :
    (finalizeSignal (some 2)
      { action := some TradeAction.BUY, confidence := 50, duration := 3,
        timestamp := 0, entryPrice := some 1, result := none, exitPrice := none }
      ⟨0,0,0,0,0,0,0⟩).1.result =
      some (if ((some TradeAction.BUY : Option TradeAction) = some TradeAction.BUY ∧ (1:ℚ) < 2) ∨
               ((some TradeAction.BUY : Option TradeAction) = some TradeAction.SELL ∧ (2:ℚ) < 1)
            then Outcome.WIN else Outcome.LOSS) :=
  claim_C8_finalize_idempotent.2.2.2.1 2 1
    { action := some TradeAction.BUY, confidence := 50, duration := 3,
      timestamp := 0, entryPrice := some 1, result := none, exitPrice := none }
    ⟨0,0,0,0,0,0,0⟩ rfl rfl

/-!
## Deep Sight shadow learning (`updateDeepSight`, v17 Market Oracle)
-/

structure ShadowTrade where
  startPrice : ℚ
  /-- Always `'BUY'` or `'SELL'` at the single creation site (Step A of
  the v17 engine). -/
  direction : TradeAction
  timestamp : ℤ
  expiry : ℤ
  deriving DecidableEq

structure DeepSight where
  shadowTrades : List ShadowTrade
  virtualHistory : List Outcome
  winRate : ℤ
  deriving DecidableEq

/-- The WIN/LOSS outcome the evaluator assigns to one expired trade. -/
def shadowOutcome (currentPrice : ℚ) (trade : ShadowTrade) : Outcome :=
  if (trade.direction == TradeAction.BUY && decide (currentPrice > trade.startPrice)) ||
     (trade.direction == TradeAction.SELL && decide (currentPrice < trade.startPrice))
  then Outcome.WIN else Outcome.LOSS

/-- One `forEach` iteration of the evaluator: an expired trade pushes its
outcome into the (shared, shifted-at-more-than-5) history, an unexpired
one is kept in `unresolved`. -/
def deepSightStep (currentPrice : ℚ) (now : ℤ)
    (acc : List ShadowTrade × List Outcome) (trade : ShadowTrade) :
    List ShadowTrade × List Outcome :=
  if now ≥ trade.expiry then
    let hist := acc.2 ++ [shadowOutcome currentPrice trade]
    (acc.1, if hist.length > 5 then hist.tail else hist)
  else (acc.1 ++ [trade], acc.2)

/-- `updateDeepSight(pairState, currentPrice)` (`now` is `Date.now()`). -/
def updateDeepSight (ds : DeepSight) (currentPrice : ℚ) (now : ℤ) : DeepSight :=
  let res := ds.shadowTrades.foldl (deepSightStep currentPrice now) ([], ds.virtualHistory)
  let winRate : ℤ :=
    if res.2.length = 0 then 0
    else jsRound ((((res.2.filter (· == Outcome.WIN)).length : ℚ) / res.2.length) * 100)
  { shadowTrades := res.1, virtualHistory := res.2, winRate := winRate }

/-- The last `n` entries of a list (JS repeated `shift()` semantics). -/
def lastN (n : ℕ) (L : List α) : List α := L.drop (L.length - n)

theorem lastN_length_le (n : ℕ) (L : List α) : (lastN n L).length ≤ n := by
  simp [lastN]
  omega

theorem lastN_of_le (n : ℕ) (L : List α) (h : L.length ≤ n) : lastN n L = L := by
  unfold lastN
  have : L.length - n = 0 := by omega
  rw [this, List.drop_zero]

theorem lastN_append_lastN (n : ℕ) (A B : List α) :
    lastN n (lastN n A ++ B) = lastN n (A ++ B) := by
  unfold lastN
  have hk : A.length - n ≤ A.length := Nat.sub_le _ _
  rw [← List.drop_append_of_le_length hk]
  rw [List.drop_drop]
  congr 1
  simp only [List.length_append, List.length_drop]
  omega

/-- The evaluator fold, in closed form: unresolved trades are the
non-expired ones in order, and the history is the last five of the old
history extended by the expired trades' outcomes. -/
theorem deepSightFold_spec (currentPrice : ℚ) (now : ℤ) (trades : List ShadowTrade) :
    ∀ (un : List ShadowTrade) (hist : List Outcome), hist.length ≤ 5 →
    trades.foldl (deepSightStep currentPrice now) (un, hist) =
      (un ++ trades.filter (fun tr => decide (¬ now ≥ tr.expiry)),
       lastN 5 (hist ++ (trades.filter (fun tr => decide (now ≥ tr.expiry))).map
         (shadowOutcome currentPrice))) := by
  induction trades with
  | nil =>
    intro un hist hle
    simp [lastN_of_le 5 hist hle]
  | cons tr rest ih =>
    intro un hist hle
    rw [List.foldl_cons]
    by_cases hexp : now ≥ tr.expiry
    · have hstep : deepSightStep currentPrice now (un, hist) tr =
          (un, lastN 5 (hist ++ [shadowOutcome currentPrice tr])) := by
        unfold deepSightStep
        rw [if_pos hexp]
        simp only []
        congr 1
        by_cases hlen : (hist ++ [shadowOutcome currentPrice tr]).length > 5
        · rw [if_pos hlen]
          simp only [List.length_append, List.length_singleton] at hlen
          have h6 : hist.length = 5 := by omega
          unfold lastN
          simp only [List.length_append, List.length_singleton, h6]
          have : 5 + 1 - 5 = 1 := by omega
          rw [this]
          rcases hist with _ | ⟨a, t⟩
          · simp at h6
          · simp
        · rw [if_neg hlen]
          simp only [not_lt, List.length_append, List.length_singleton] at hlen
          rw [lastN_of_le 5 _ (by simp; omega)]
      rw [hstep]
      rw [ih un _ (lastN_length_le 5 _)]
      have hf1 : (tr :: rest).filter (fun tr => decide (¬ now ≥ tr.expiry)) =
          rest.filter (fun tr => decide (¬ now ≥ tr.expiry)) := by
        rw [List.filter_cons]
        simp [hexp]
      have hf2 : (tr :: rest).filter (fun tr => decide (now ≥ tr.expiry)) =
          tr :: rest.filter (fun tr => decide (now ≥ tr.expiry)) := by
        rw [List.filter_cons]
        simp [hexp]
      rw [hf1, hf2]
      congr 1
      rw [List.map_cons]
      rw [show hist ++ shadowOutcome currentPrice tr ::
            (rest.filter (fun tr => decide (now ≥ tr.expiry))).map (shadowOutcome currentPrice) =
          (hist ++ [shadowOutcome currentPrice tr]) ++
            (rest.filter (fun tr => decide (now ≥ tr.expiry))).map (shadowOutcome currentPrice)
        by simp]
      exact lastN_append_lastN 5 _ _
    · have hstep : deepSightStep currentPrice now (un, hist) tr = (un ++ [tr], hist) := by
        unfold deepSightStep
        rw [if_neg hexp]
      rw [hstep]
      rw [ih (un ++ [tr]) hist hle]
      have hf1 : (tr :: rest).filter (fun tr => decide (¬ now ≥ tr.expiry)) =
          tr :: rest.filter (fun tr => decide (¬ now ≥ tr.expiry)) := by
        rw [List.filter_cons]
        simp [hexp]
      have hf2 : (tr :: rest).filter (fun tr => decide (now ≥ tr.expiry)) =
          rest.filter (fun tr => decide (now ≥ tr.expiry)) := by
        rw [List.filter_cons]
        simp [hexp]
      rw [hf1, hf2]
      simp

/-- Closed form of `updateDeepSight` on any state whose rolling history
respects the 5-entry bound (an invariant of all reachable states). -/
theorem updateDeepSight_spec (ds : DeepSight) (currentPrice : ℚ) (now : ℤ)
    (hle : ds.virtualHistory.length ≤ 5) :
    (updateDeepSight ds currentPrice now).shadowTrades =
      ds.shadowTrades.filter (fun tr => decide (¬ now ≥ tr.expiry)) ∧
    (updateDeepSight ds currentPrice now).virtualHistory =
      lastN 5 (ds.virtualHistory ++
        (ds.shadowTrades.filter (fun tr => decide (now ≥ tr.expiry))).map
          (shadowOutcome currentPrice)) ∧
    (updateDeepSight ds currentPrice now).virtualHistory.length ≤ 5 ∧
    (updateDeepSight ds currentPrice now).winRate =
      (if (updateDeepSight ds currentPrice now).virtualHistory.length = 0 then 0
       else jsRound (((((updateDeepSight ds currentPrice now).virtualHistory.filter
           (· == Outcome.WIN)).length : ℚ) /
           (updateDeepSight ds currentPrice now).virtualHistory.length) * 100)) := by
  have hfold := deepSightFold_spec currentPrice now ds.shadowTrades [] ds.virtualHistory hle
  unfold updateDeepSight
  rw [hfold]
  refine ⟨by simp, rfl, lastN_length_le 5 _, rfl⟩

/-- Claim C10 (ties resolve to LOSS): when the exit price exactly equals
the entry price, both the real-signal finalizer and the shadow-trade
evaluator record a LOSS, for BUY and SELL alike. -/
theorem claim_C10_tie_resolves_to_loss :
    (∀ (p : ℚ) (s : Signal) st, s.result = none → s.entryPrice = some p →
      (finalizeSignal (some p) s st).1.result = some Outcome.LOSS) ∧
    (∀ (p : ℚ) (now : ℤ) (ds : DeepSight) (tr : ShadowTrade),
      ds.virtualHistory.length ≤ 4 → tr.startPrice = p → tr.expiry ≤ now →
      ds.shadowTrades = [tr] →
      (updateDeepSight ds p now).virtualHistory =
        ds.virtualHistory ++ [Outcome.LOSS]) := by
  refine ⟨?_, ?_⟩
  · intro p s st hr he
    obtain ⟨act, conf, dur, tsp, entry, res, exit⟩ := s
    simp only [] at hr he
    subst hr
    subst he
    have hfalse : (act == some TradeAction.BUY && decide (p > p) ||
        act == some TradeAction.SELL && decide (p < p)) = false := by
      simp
    simp [finalizeSignal, hfalse]
  · intro p now ds tr hlen hsp hexp htr
    obtain ⟨trs, hist, wr⟩ := ds
    simp only [] at htr hlen
    subst htr
    have hstep : deepSightStep p now ([], hist) tr = ([], hist ++ [Outcome.LOSS]) := by
      unfold deepSightStep
      rw [if_pos (by omega)]
      simp only []
      have hout : shadowOutcome p tr = Outcome.LOSS := by
        obtain ⟨sp, d, tst, ex⟩ := tr
        simp only [] at hsp
        subst hsp
        unfold shadowOutcome
        simp
      rw [hout]
      rw [if_neg (by simp only [List.length_append, List.length_singleton]; omega)]
    unfold updateDeepSight
    simp only [List.foldl_cons, List.foldl_nil, hstep]

/-- Witness for C10 at entry = exit = 1 with a BUY signal and a BUY
shadow trade. -/
theorem claim_C10_witness :
    ((finalizeSignal (some 1)
      { action := some TradeAction.BUY, confidence := 80, duration := 3,
        timestamp := 0, entryPrice := some 1, result := none, exitPrice := none }
      ⟨0,0,0,0,0,0,0⟩).1.result = some Outcome.LOSS) ∧
    ((updateDeepSight
      { shadowTrades := [{ startPrice := 1, direction := TradeAction.BUY,
                           timestamp := 0, expiry := 5 }],
        virtualHistory := [Outcome.WIN], winRate := 100 } 1 10).virtualHistory =
      [Outcome.WIN] ++ [Outcome.LOSS]) :=
  ⟨claim_C10_tie_resolves_to_loss.1 1
    { action := some TradeAction.BUY, confidence := 80, duration := 3,
      timestamp := 0, entryPrice := some 1, result := none, exitPrice := none }
    ⟨0,0,0,0,0,0,0⟩ rfl rfl,
   claim_C10_tie_resolves_to_loss.2 1 10
    { shadowTrades := [{ startPrice := 1, direction := TradeAction.BUY,
                         timestamp := 0, expiry := 5 }],
      virtualHistory := [Outcome.WIN], winRate := 100 }
    { startPrice := 1, direction := TradeAction.BUY, timestamp := 0, expiry := 5 }
    (by decide) rfl (by decide) rfl⟩

/-!
## The tick loop (`tickLoop`, content script lines 747-809)

Tick prices arrive as arbitrary JavaScript values; the guard is
`typeof price === 'number' && price > 0`.  `JSPrice` models the value
space: finite numbers, `NaN`, `±Infinity` (all of `typeof 'number'`) and
`other` for any non-number value.
-/

inductive JSPrice where
  | num (q : ℚ)
  | nan
  | posInf
  | negInf
  | other
  deriving DecidableEq

/-- `typeof price === 'number' && price > 0`.  Note that `Infinity` is a
positive number in JavaScript, so it passes this guard. -/
def isTickablePrice : JSPrice → Bool
  | .num q => decide (q > 0)
  | .nan => false      -- typeof NaN is 'number' but NaN > 0 is false
  | .posInf => true    -- typeof Infinity is 'number' and Infinity > 0
  | .negInf => false
  | .other => false    -- fails the typeof test

/-- `Math.max` on JS values (`NaN` absorbs; `other` stands for a
non-numeric value, which `Math.max` coerces to `NaN`). -/
def jsMaxP : JSPrice → JSPrice → JSPrice
  | .nan, _ => .nan
  | _, .nan => .nan
  | .other, _ => .nan
  | _, .other => .nan
  | .posInf, _ => .posInf
  | _, .posInf => .posInf
  | .negInf, y => y
  | x, .negInf => x
  | .num a, .num b => .num (max a b)

/-- `Math.min` on JS values (see `jsMaxP`). -/
def jsMinP : JSPrice → JSPrice → JSPrice
  | .nan, _ => .nan
  | _, .nan => .nan
  | .other, _ => .nan
  | _, .other => .nan
  | .negInf, _ => .negInf
  | _, .negInf => .negInf
  | .posInf, y => y
  | x, .posInf => x
  | .num a, .num b => .num (min a b)

/-- The per-pair slice of the content script's parallel maps
(`pairBuffers`, `pairOhlcM1`, `pairLastPrices`, `pairFluxCounters`,
`pairLastPriceUpdate`, `pairFrozenStatus`, `pairWarmupComplete`,
`pairEngineStates`).  The engine-state type `σ` is abstract here: the
`ProjectNexus` engine the loop synchronises with is not part of this
repository. -/
structure PairRec (σ : Type) where
  buffer : CBuf (CandleG JSPrice)
  ohlc : List (Option (CandleG JSPrice))
  lastPrice : Option JSPrice
  fluxCounter : ℕ
  lastPriceUpdate : ℤ
  frozen : Bool
  warmupComplete : Bool
  engineState : Option σ

/-- `updateCandlesForPair` including its `pairOhlcM1` refresh and the
warmup-complete flag update (which fires only in the new-candle branch,
against the post-push candle count). -/
def updateCandlesFull {σ : Type} (warmupCandlesCount : ℕ) (r : PairRec σ)
    (price : JSPrice) (timestamp : ℤ) : PairRec σ :=
  let created := tickCreatesCandle r.buffer timestamp
  let buffer := updateCandlesForPair jsMaxP jsMinP r.buffer price timestamp
  let warm :=
    if created ∧ ¬ r.warmupComplete ∧ warmupCandlesCount ≤ buffer.getAll.length
    then true else r.warmupComplete
  { r with buffer := buffer, ohlc := buffer.getAll, warmupComplete := warm }

/-- One pair's pass of `tickLoop` for one `(pair, price)` entry, together
with the global `consecutiveLossesCount`.  `sync` is the late-bound
`window.ProjectNexus.syncOracle` (external to this repository) and
`histOf` reads a state's `deepSight.virtualHistory` for the
shadow-recovery rule. -/
def tickPairStep {σ : Type} (sync : Option σ → JSPrice → Option σ)
    (histOf : σ → List Outcome) (warmupCandlesCount : ℕ) (now : ℤ)
    (price : JSPrice) (r : PairRec σ) (consecutiveLosses : ℕ) :
    PairRec σ × ℕ :=
  if isTickablePrice price then
    let previousPrice := r.lastPrice
    let changed := previousPrice ≠ some price
    let flux := if changed then r.fluxCounter + 1 else r.fluxCounter
    let isNewMinute := tickCreatesCandle r.buffer now
    let shouldUpdate := changed ∨ isNewMinute = true
    let r1 := { r with lastPrice := some price, fluxCounter := flux }
    let r2 := if changed then { r1 with lastPriceUpdate := now, frozen := false } else r1
    let r3 := if shouldUpdate then updateCandlesFull warmupCandlesCount r2 price now else r2
    let prevState := r.engineState
    let newState := sync prevState price
    let r4 := { r3 with engineState := newState }
    let consec :=
      match prevState, newState with
      | some ps, some ns =>
        if (histOf ps).length < (histOf ns).length ∧
           (histOf ns).getLast? = some Outcome.WIN ∧ 0 < consecutiveLosses
        then consecutiveLosses - 1 else consecutiveLosses
      | _, _ => consecutiveLosses
    (r4, consec)
  else (r, consecutiveLosses)

/-- Claim C9 (amended): a tick price that is a non-positive number, NaN,
negative infinity, or a non-number value is dropped: nothing of the
pair's state (candles included) nor the loss-streak counter changes. -/
theorem claim_C9_amended_bad_price_is_ignored {σ : Type}
    (sync : Option σ → JSPrice → Option σ) (histOf : σ → List Outcome)
    (warmupCandlesCount : ℕ) (now : ℤ) (price : JSPrice)
    (r : PairRec σ) (cl : ℕ)
    (hbad : (∃ q, price = JSPrice.num q ∧ q ≤ 0) ∨ price = JSPrice.nan ∨
            price = JSPrice.negInf ∨ price = JSPrice.other) :
    tickPairStep sync histOf warmupCandlesCount now price r cl = (r, cl) := by
  have hguard : isTickablePrice price = false := by
    rcases hbad with ⟨q, hq, hle⟩ | h | h | h
    · subst hq
      simp only [isTickablePrice, decide_eq_false_iff_not, not_lt, gt_iff_lt]
      exact hle
    all_goals subst h
    all_goals rfl
  unfold tickPairStep
  rw [hguard]
  simp

/-- Witness for the amended C9 at price `NaN`. -/
theorem claim_C9_amended_witness :
    tickPairStep (σ := Unit) (fun s _ => s) (fun _ => []) 50 0 JSPrice.nan
      { buffer := CBuf.empty _ 2000, ohlc := [], lastPrice := none,
        fluxCounter := 0, lastPriceUpdate := 0, frozen := false,
        warmupComplete := false, engineState := none } 0 =
      ({ buffer := CBuf.empty _ 2000, ohlc := [], lastPrice := none,
         fluxCounter := 0, lastPriceUpdate := 0, frozen := false,
         warmupComplete := false, engineState := none }, 0) :=
  claim_C9_amended_bad_price_is_ignored (fun s _ => s) (fun _ => []) 50 0
    JSPrice.nan _ 0 (Or.inr (Or.inl rfl))

/-- Counterexample to C9 as stated: `+Infinity` is non-finite, yet it
passes the `typeof price === 'number' && price > 0` guard, so the tick
is processed — a candle is created (buffer grows to size 1) and the
pair's last price becomes `Infinity`. -/
theorem claim_C9_counterexample :
    (tickPairStep (σ := Unit) (fun s _ => s) (fun _ => []) 50 0 JSPrice.posInf
      { buffer := CBuf.empty _ 2000, ohlc := [], lastPrice := none,
        fluxCounter := 0, lastPriceUpdate := 0, frozen := false,
        warmupComplete := false, engineState := none } 0).1.buffer.size = 1 ∧
    (tickPairStep (σ := Unit) (fun s _ => s) (fun _ => []) 50 0 JSPrice.posInf
      { buffer := CBuf.empty _ 2000, ohlc := [], lastPrice := none,
        fluxCounter := 0, lastPriceUpdate := 0, frozen := false,
        warmupComplete := false, engineState := none } 0).1.lastPrice =
      some JSPrice.posInf := by
  constructor <;> rfl

/-!
## Smart-Money-Concepts pattern library (`smart-money-indicators.js`)

Every call site in the repository invokes `analyzeSmartMoney(candles)`
with `pair` undefined, so `getPipSize` always yields `0.0001`; the pip
size is therefore fixed below.  IEEE doubles are modelled as exact
rationals.  The `regime`, `displacement`, `rsi` and `bb` fields that
`analyzeSmartMoney` also stores are read by no engine in the repository
and are omitted from the record.
-/

/-- `candles[i]` (every use below is guarded in bounds, as in the JS). -/
def cAt (candles : List Candle) (i : ℕ) : Candle := candles.getD i ⟨0, 0, 0, 0, 0⟩

def pipSize : ℚ := 1/10000

inductive Trend where
  | BULLISH
  | BEARISH
  | RANGING
  | NEUTRAL
  deriving DecidableEq

inductive StructureTag where
  | HH_HL
  | LH_LL
  | NEUTRAL
  deriving DecidableEq

inductive BreakDir where
  | bullish
  | bearish
  deriving DecidableEq

structure StructBreak where
  dir : BreakDir
  price : ℚ
  time : ℤ
  bqi : ℤ
  deriving DecidableEq

structure SwingPt where
  index : ℕ
  price : ℚ
  time : ℤ
  deriving DecidableEq

structure SwingPoints where
  swingHighs : List SwingPt
  swingLows : List SwingPt
  deriving DecidableEq

structure MarketStructure where
  trend : Trend
  /-- the source field is called `structure` (a Lean keyword) -/
  structTag : StructureTag
  lastBOS : Option StructBreak
  lastCHoCH : Option StructBreak
  swingHighs : List SwingPt
  swingLows : List SwingPt
  /-- patched onto the record by `analyzeSmartMoney` -/
  m15Trend : Trend
  deriving DecidableEq

structure EqLevel where
  price : ℚ
  time : ℤ
  deriving DecidableEq

structure EqualLevels where
  eqHighs : List EqLevel
  eqLows : List EqLevel
  deriving DecidableEq

structure SweepInfo where
  price : ℚ
  sweptLevel : ℚ
  time : ℤ
  strength : ℚ
  deriving DecidableEq

structure Sweeps where
  bullishSweeps : List SweepInfo
  bearishSweeps : List SweepInfo
  deriving DecidableEq

structure Liquidity where
  equalLevels : EqualLevels
  sweeps : Sweeps
  deriving DecidableEq

structure OrderBlock where
  high : ℚ
  low : ℚ
  time : ℤ
  strength : ℚ
  mitigated : Bool
  deriving DecidableEq

structure OrderBlocks where
  bullishOB : List OrderBlock
  bearishOB : List OrderBlock
  deriving DecidableEq

structure Imbalance where
  top : ℚ
  bottom : ℚ
  gap : ℚ
  time : ℤ
  filled : Bool
  mitigated : Bool
  deriving DecidableEq

structure Imbalances where
  bullishIMB : List Imbalance
  bearishIMB : List Imbalance
  deriving DecidableEq

structure BreakerBlock where
  high : ℚ
  low : ℚ
  time : ℤ
  strength : ℚ
  sweepPrice : ℚ
  deriving DecidableEq

structure Breakers where
  bullishBreakers : List BreakerBlock
  bearishBreakers : List BreakerBlock
  deriving DecidableEq

structure MitigationBlock where
  high : ℚ
  low : ℚ
  time : ℤ
  strength : ℚ
  deriving DecidableEq

structure Mitigations where
  bullishMitigation : List MitigationBlock
  bearishMitigation : List MitigationBlock
  deriving DecidableEq

structure RejectionBlock where
  top : ℚ
  bottom : ℚ
  time : ℤ
  wickStrength : ℚ
  deriving DecidableEq

structure Rejections where
  bullishRejection : List RejectionBlock
  bearishRejection : List RejectionBlock
  deriving DecidableEq

structure InducementPt where
  price : ℚ
  time : ℤ
  index : ℕ
  strength : ℚ
  deriving DecidableEq

structure Inducements where
  bullishInducement : List InducementPt
  bearishInducement : List InducementPt
  deriving DecidableEq

inductive ZoneTag where
  | PREMIUM
  | DISCOUNT
  | EQUILIBRIUM
  deriving DecidableEq

structure PremiumDiscount where
  rangeHigh : ℚ
  rangeLow : ℚ
  rangeSize : ℚ
  premiumLevel : ℚ
  equilibriumLevel : ℚ
  discountLevel : ℚ
  currentPrice : ℚ
  currentZone : ZoneTag
  zonePercentage : ℤ
  isDynamic : Bool
  bias : Trend
  deriving DecidableEq

structure OTELevels where
  fib618 : ℚ
  fib705 : ℚ
  fib786 : ℚ
  oteDiscountLow : ℚ
  oteDiscountHigh : ℚ
  otePremiumLow : ℚ
  otePremiumHigh : ℚ
  rangeHigh : ℚ
  rangeLow : ℚ
  rangeSize : ℚ
  deriving DecidableEq

inductive Phase where
  | EXPANSION
  | CONTRACTION
  | RANGING
  | UNKNOWN
  deriving DecidableEq

inductive VAligned where
  | NONE
  | BULLISH
  | BEARISH
  deriving DecidableEq

structure VelocityDelta where
  velocity : ℚ
  delta : ℚ
  aligned : VAligned
  deriving DecidableEq

inductive PinType where
  | BULLISH_PIN
  | BEARISH_PIN
  deriving DecidableEq

structure PinBar where
  type : PinType
  strength : ℚ
  deriving DecidableEq

inductive EngulfType where
  | BULLISH_ENGULFING
  | BEARISH_ENGULFING
  deriving DecidableEq

structure PriceAction where
  pinBar : Option PinBar
  engulfing : Option EngulfType
  deriving DecidableEq

structure SmcData where
  marketStructure : MarketStructure
  liquidity : Liquidity
  orderBlocks : OrderBlocks
  imbalance : Imbalances
  breakerBlocks : Breakers
  mitigationBlocks : Mitigations
  rejectionBlocks : Rejections
  inducement : Inducements
  premiumDiscount : Option PremiumDiscount
  ote : Option OTELevels
  marketPhase : Phase
  velocityDelta : VelocityDelta
  deriving DecidableEq

/-- `findSwingPoints(candles, lookback)`: strict local extrema over
`±lookback` neighbours. -/
def findSwingPoints (candles : List Candle) (lookback : ℕ) : SwingPoints :=
  if candles.length < lookback * 2 + 1 then ⟨[], []⟩
  else
    let idxs := (List.range candles.length).filter
      (fun i => lookback ≤ i && i + lookback < candles.length)
    { swingHighs := idxs.filterMap (fun i =>
        let current := cAt candles i
        if (List.range lookback).all (fun j =>
            decide ((cAt candles (i - (j + 1))).h < current.h) &&
            decide ((cAt candles (i + (j + 1))).h < current.h))
        then some ⟨i, current.h, current.t⟩ else none)
      swingLows := idxs.filterMap (fun i =>
        let current := cAt candles i
        if (List.range lookback).all (fun j =>
            decide (current.l < (cAt candles (i - (j + 1))).l) &&
            decide (current.l < (cAt candles (i + (j + 1))).l))
        then some ⟨i, current.l, current.t⟩ else none) }

/-- `calculateBQI(candle, previousCandles)`: Breakout Quality Index. -/
def calculateBQI (candle : Candle) (previousCandles : List Candle) : ℤ :=
  if previousCandles.length < 5 then 0
  else
    let bodySize := |candle.c - candle.o|
    let totalRange := candle.h - candle.l
    let bodyRange := if totalRange = 0 then 1/100000 else totalRange  -- `|| 0.00001`
    let bodyRatio := bodySize / bodyRange
    let quality := bodyRatio * 60
    let last5 := previousCandles.drop (previousCandles.length - 5)
    let avgRange := (last5.map (fun c => c.h - c.l)).sum / 5
    let avgRange' := if avgRange = 0 then 1/100000 else avgRange  -- `|| 0.00001`
    let sizeMultiplier := totalRange / avgRange'
    jsRound (quality + min 40 (sizeMultiplier * 10))

/-- `detectMarketStructure(candles)`.  The early return omits the swing
arrays in JS (`undefined`); downstream code only checks `length < 2`, so
empty lists are observationally identical.  `m15Trend` is patched on by
`analyzeSmartMoney`; it is `NEUTRAL` until then. -/
def detectMarketStructure (candles : List Candle) : MarketStructure :=
  let sp := findSwingPoints candles 3
  if sp.swingHighs.length < 2 ∨ sp.swingLows.length < 2 then
    { trend := .RANGING, structTag := .NEUTRAL, lastBOS := none, lastCHoCH := none,
      swingHighs := [], swingLows := [], m15Trend := .NEUTRAL }
  else
    let dflt : SwingPt := ⟨0, 0, 0⟩
    let lastCandle := cAt candles (candles.length - 1)
    let recentHighs := sp.swingHighs.drop (sp.swingHighs.length - 3)
    let recentLows := sp.swingLows.drop (sp.swingLows.length - 3)
    let ts : Trend × StructureTag :=
      if 2 ≤ recentHighs.length ∧ 2 ≤ recentLows.length then
        let hLast := (recentHighs.getD (recentHighs.length - 1) dflt).price
        let hFirst := (recentHighs.getD 0 dflt).price
        let lLast := (recentLows.getD (recentLows.length - 1) dflt).price
        let lFirst := (recentLows.getD 0 dflt).price
        if hFirst < hLast ∧ lFirst < lLast then (.BULLISH, .HH_HL)
        else if hLast < hFirst ∧ lLast < lFirst then (.BEARISH, .LH_LL)
        else (.RANGING, .NEUTRAL)
      else (.RANGING, .NEUTRAL)
    let trend := ts.1
    let lastSwingHigh := sp.swingHighs.getD (sp.swingHighs.length - 1) dflt
    let lastSwingLow := sp.swingLows.getD (sp.swingLows.length - 1) dflt
    let bqi := calculateBQI lastCandle candles.dropLast
    let lastBOS : Option StructBreak :=
      if trend = .BULLISH ∧ lastSwingHigh.price < lastCandle.c then
        some ⟨.bullish, lastSwingHigh.price, lastCandle.t, bqi⟩
      else if trend = .BEARISH ∧ lastCandle.c < lastSwingLow.price then
        some ⟨.bearish, lastSwingLow.price, lastCandle.t, bqi⟩
      else none
    let lastCHoCH : Option StructBreak :=
      if trend = .BULLISH ∧ lastCandle.c < lastSwingLow.price then
        some ⟨.bearish, lastSwingLow.price, lastCandle.t, bqi⟩
      else if trend = .BEARISH ∧ lastSwingHigh.price < lastCandle.c then
        some ⟨.bullish, lastSwingHigh.price, lastCandle.t, bqi⟩
      else none
    { trend := trend, structTag := ts.2, lastBOS := lastBOS, lastCHoCH := lastCHoCH,
      swingHighs := sp.swingHighs, swingLows := sp.swingLows, m15Trend := .NEUTRAL }

/-- `calculateTrendContext(candles, pair)` of the SMC library: only its
`m15Trend` field is ever read. -/
def smcTrendContext (candles : List Candle) : Trend :=
  if candles.length < 15 then .NEUTRAL
  else
    let closes := candles.map (·.c)
    let lastPrice := closes.getD (closes.length - 1) 0
    let ema5 := (closes.drop (closes.length - 5)).sum / 5
    let ema15 := (closes.drop (closes.length - 15)).sum / 15
    if ema5 < lastPrice ∧ ema15 < ema5 then .BULLISH
    else if lastPrice < ema5 ∧ ema5 < ema15 then .BEARISH
    else .NEUTRAL

/-- `detectEqualLevels(candles, lookback, pip)`: the first later swing
within relative tolerance is clustered with the current one (the `break`
makes it first-match-only). -/
def detectEqualLevels (candles : List Candle) (lookback : ℕ) (pip : ℚ) : EqualLevels :=
  let sp := findSwingPoints candles 3
  let recentHighs := sp.swingHighs.filter
    (fun s => decide ((candles.length : ℤ) - lookback ≤ (s.index : ℤ)))
  let recentLows := sp.swingLows.filter
    (fun s => decide ((candles.length : ℤ) - lookback ≤ (s.index : ℤ)))
  let tolerance := 2 * pip   -- EQUAL_LEVEL_TOLERANCE * pip
  -- NB the comparison `priceDiff / avgPrice < tolerance` is relative;
  -- with a zero average price JS would compare NaN (false) where ℚ
  -- division yields 0 — unreachable for positive price feeds.
  let cluster := fun (pts : List SwingPt) =>
    (List.range pts.length).filterMap (fun i =>
      let a := pts.getD i ⟨0, 0, 0⟩
      match (pts.drop (i + 1)).find? (fun b =>
        decide (|a.price - b.price| / ((a.price + b.price) / 2) < tolerance)) with
      | some b => some ({ price := (a.price + b.price) / 2, time := b.time } : EqLevel)
      | none => none)
  { eqHighs := cluster recentHighs, eqLows := cluster recentLows }

/-- True range of candle `i` against candle `i-1`. -/
def trueRange (c prev : Candle) : ℚ :=
  max (c.h - c.l) (max |c.h - prev.c| |c.l - prev.c|)

def trueRanges (candles : List Candle) : List ℚ :=
  (List.range (candles.length - 1)).map
    (fun i => trueRange (cAt candles (i + 1)) (cAt candles i))

/-- The ATR series: SMA of the first `period` true ranges, then the
Wilder EMA with `k = 1/period`. -/
def atrSeries (trs : List ℚ) (period : ℕ) : List ℚ :=
  let first := (trs.take period).sum / period
  ((trs.drop period).foldl
    (fun (acc : List ℚ × ℚ) tr =>
      let a := tr * (1 / (period : ℚ)) + acc.2 * (1 - 1 / (period : ℚ))
      (acc.1 ++ [a], a))
    ([first], first)).1

structure ATRsmc where
  current : ℚ
  mean : ℚ
  ratio : ℚ
  deriving DecidableEq

/-- `calculateATR` of the SMC library: mean over the whole series and a
`|| 0.00001`-guarded ratio. -/
def calculateATRsmc (candles : List Candle) (period : ℕ) : ATRsmc :=
  if candles.length < period + 1 then ⟨0, 0, 1⟩
  else
    let av := atrSeries (trueRanges candles) period
    let meanAtr := av.sum / av.length
    let current := av.getD (av.length - 1) 0
    ⟨current, meanAtr, current / (if meanAtr = 0 then 1/100000 else meanAtr)⟩

structure ATRv12 where
  current : ℚ
  mean : ℚ
  ratio : JNum
  deriving DecidableEq

/-- `calculateATR` of the v12 engine: mean over the last 100 series
values and an *unguarded* ratio (`0/0 = NaN` on a dead-flat feed). -/
def calculateATRv12 (candles : List Candle) (period : ℕ) : ATRv12 :=
  if candles.length < period + 1 then ⟨0, 0, .num 1⟩
  else
    let av := atrSeries (trueRanges candles) period
    let lookback := min 100 av.length
    let recentATR := av.drop (av.length - lookback)
    let meanATR := recentATR.sum / recentATR.length
    let currentATR := av.getD (av.length - 1) 0
    ⟨currentATR, meanATR, jsDivJ currentATR meanATR⟩

/-- `getDynamicSweepWickRatio(candles)`.  The source computes
`const atrPercent = (atr / avgPrice) * 100` where `atr` is the whole
`{current, mean, ratio}` record returned by `calculateATR`, not a
number: the division coerces the object to `NaN`, so `atrPercent` is
always `NaN` and both band comparisons are false. -/
def getDynamicSweepWickRatio (candles : List Candle) : ℚ :=
  let _atr := calculateATRsmc candles 14
  if candles.length = 0 then 9/20   -- fallback to SMC_CONFIG.SWEEP_WICK_RATIO
  else
    let lastCandle := cAt candles (candles.length - 1)
    let _avgPrice := (lastCandle.h + lastCandle.l) / 2
    let atrPercent : JNum := .nan   -- object / number в JS is NaN
    if atrPercent.gtQ (1/10) then 2/5
    else if atrPercent.gtQ (1/20) then 1/2
    else 3/5

/-- The volatility-band rule the claim (and the function's own comment
block) describes, computed from the ATR value `atr.current`: 0.4 above
0.1% of price, 0.5 above 0.05%, else 0.6. -/
def sweepWickRatioPerSpec (candles : List Candle) : ℚ :=
  if candles.length = 0 then 9/20
  else
    let atr := (calculateATRsmc candles 14).current
    let lastCandle := cAt candles (candles.length - 1)
    let avgPrice := (lastCandle.h + lastCandle.l) / 2
    let atrPercent := atr / avgPrice * 100
    if atrPercent > 1/10 then 2/5
    else if atrPercent > 1/20 then 1/2
    else 3/5

/-- `detectLiquiditySweeps(candles, lookback = 5)`. -/
def detectLiquiditySweeps (candles : List Candle) (lookback : ℕ) : Sweeps :=
  if candles.length < lookback + 1 then ⟨[], []⟩
  else
    let recentCandles := candles.drop (candles.length - (lookback + 1))
    let lastCandle := recentCandles.getD (recentCandles.length - 1) ⟨0, 0, 0, 0, 0⟩
    let previousCandles := recentCandles.dropLast
    let recentHigh := listMax (previousCandles.map (·.h))
    let recentLow := listMin (previousCandles.map (·.l))
    let wickRatio := getDynamicSweepWickRatio candles
    let totalRange := lastCandle.h - lastCandle.l
    let upperWick := lastCandle.h - max lastCandle.c lastCandle.o
    let lowerWick := min lastCandle.c lastCandle.o - lastCandle.l
    -- On the branch below `h > recentHigh ≥ ... and c < recentHigh` force
    -- `totalRange`'s sign to agree with the wick's, so plain ℚ division
    -- decides the `>` exactly as the JS division does.
    let bearishSweeps :=
      if recentHigh < lastCandle.h ∧ lastCandle.c < recentHigh ∧
         wickRatio < upperWick / totalRange then
        [(⟨lastCandle.h, recentHigh, lastCandle.t, upperWick / totalRange⟩ : SweepInfo)]
      else []
    let bullishSweeps :=
      if lastCandle.l < recentLow ∧ recentLow < lastCandle.c ∧
         wickRatio < lowerWick / totalRange then
        [(⟨lastCandle.l, recentLow, lastCandle.t, lowerWick / totalRange⟩ : SweepInfo)]
      else []
    ⟨bullishSweeps, bearishSweeps⟩

/-- `detectOrderBlocks(candles, lookback = 10, pip)`: an opposite-colour
candle followed by a 1.5× impulse.  `mitigated` is filled in later by
the mitigation scan of `analyzeSmartMoney`. -/
def detectOrderBlocks (candles : List Candle) (lookback : ℕ) : OrderBlocks :=
  if candles.length < lookback then ⟨[], []⟩
  else
    let recentCandles := candles.drop (candles.length - lookback)
    let pick := fun (wantBearishCurrent : Bool) =>
      (List.range recentCandles.length).filterMap (fun i =>
        if 1 ≤ i ∧ i + 1 < recentCandles.length then
          let current := cAt recentCandles i
          let next := cAt recentCandles (i + 1)
          let currentBullish := decide (current.o < current.c)
          let currentBearish := decide (current.c < current.o)
          let nextBullish := decide (next.o < next.c)
          let nextBearish := decide (next.c < next.o)
          let nextRange := |next.c - next.o|
          let currentRange := |current.c - current.o|
          let isMatch :=
            if wantBearishCurrent then currentBearish && nextBullish
            else currentBullish && nextBearish
          if isMatch && decide (currentRange * (3/2) < nextRange) then
            some ({ high := current.h, low := current.l, time := current.t,
                    strength := nextRange / currentRange, mitigated := false } : OrderBlock)
          else none
        else none)
    { bullishOB := pick true, bearishOB := pick false }

/-- `detectImbalance(candles, lookback = 10, pip)`: three-candle fair
value gaps above `IMB_MIN_GAP` pips. -/
def detectImbalance (candles : List Candle) (lookback : ℕ) (pip : ℚ) : Imbalances :=
  if candles.length < 3 then ⟨[], []⟩
  else
    let recentCandles := candles.drop (candles.length - min lookback candles.length)
    let minGap := (3/2) * pip
    let idxs := (List.range recentCandles.length).filter
      (fun i => i + 2 < recentCandles.length)
    { bullishIMB := idxs.filterMap (fun i =>
        let first := cAt recentCandles i
        let second := cAt recentCandles (i + 1)
        let third := cAt recentCandles (i + 2)
        let bullishGap := third.l - first.h
        if 0 < bullishGap ∧ minGap < bullishGap then
          some { top := third.l, bottom := first.h, gap := bullishGap,
                 time := second.t, filled := false, mitigated := false }
        else none)
      bearishIMB := idxs.filterMap (fun i =>
        let first := cAt recentCandles i
        let second := cAt recentCandles (i + 1)
        let third := cAt recentCandles (i + 2)
        let bearishGap := first.l - third.h
        if 0 < bearishGap ∧ minGap < bearishGap then
          some { top := first.l, bottom := third.h, gap := bearishGap,
                 time := second.t, filled := false, mitigated := false }
        else none) }

/-- The mitigation scan of `analyzeSmartMoney` for order blocks: marks a
zone mitigated when a candle after its creation re-enters it.  (The JS
boundary is `z.high || z.top` resp. `z.low || z.bottom`; on an
`OrderBlock` the `high`/`low` fields exist, so they are used unless the
price is literally `0`, which a real feed never produces.) -/
def markMitigatedOB (candles : List Candle) (isBullish : Bool) (z : OrderBlock) :
    OrderBlock :=
  match candles.findIdx? (fun c => c.t == z.time) with
  | none => { z with mitigated := false }
  | some zoneIndex =>
    let subsequentCandles := candles.drop (zoneIndex + 1)
    { z with mitigated := subsequentCandles.any (fun c =>
        if isBullish then decide (c.l ≤ z.high) else decide (z.low ≤ c.h)) }

/-- The same mitigation scan for imbalances (boundary `top`/`bottom`). -/
def markMitigatedImb (candles : List Candle) (isBullish : Bool) (z : Imbalance) :
    Imbalance :=
  match candles.findIdx? (fun c => c.t == z.time) with
  | none => { z with mitigated := false }
  | some zoneIndex =>
    let subsequentCandles := candles.drop (zoneIndex + 1)
    { z with mitigated := subsequentCandles.any (fun c =>
        if isBullish then decide (c.l ≤ z.top) else decide (z.bottom ≤ c.h)) }

/-- `detectBreakerBlocks(candles, orderBlocks, sweeps, lookback = 10)`:
an order block preceded by a sweep within `lookback` candles. -/
def detectBreakerBlocks (candles : List Candle) (orderBlocks : OrderBlocks)
    (sweeps : Sweeps) (lookback : ℕ) : Breakers :=
  if candles.length < lookback then ⟨[], []⟩
  else
    let scan := fun (obs : List OrderBlock) (sws : List SweepInfo) =>
      obs.filterMap (fun ob =>
        match candles.findIdx? (fun c => c.t == ob.time) with
        | none => none
        | some obIndex =>
          let priorSweeps := sws.filter (fun sweep =>
            match candles.findIdx? (fun c => c.t == sweep.time) with
            | some sweepIndex =>
              decide (sweepIndex < obIndex) && decide (obIndex - sweepIndex ≤ lookback)
            | none => false)
          if 0 < priorSweeps.length then
            some ({ high := ob.high, low := ob.low, time := ob.time,
                    strength := ob.strength * (3/2),
                    sweepPrice := (priorSweeps.getD 0 ⟨0, 0, 0, 0⟩).price } : BreakerBlock)
          else none)
    { bullishBreakers := scan orderBlocks.bullishOB sweeps.bullishSweeps
      bearishBreakers := scan orderBlocks.bearishOB sweeps.bearishSweeps }

/-- `detectMitigationBlocks(candles, orderBlocks, sweeps, lookback = 10)`:
an order block with *no* prior sweep in the lookback window. -/
def detectMitigationBlocks (candles : List Candle) (orderBlocks : OrderBlocks)
    (sweeps : Sweeps) (lookback : ℕ) : Mitigations :=
  if candles.length < lookback then ⟨[], []⟩
  else
    let scan := fun (obs : List OrderBlock) (sws : List SweepInfo) =>
      obs.filterMap (fun ob =>
        match candles.findIdx? (fun c => c.t == ob.time) with
        | none => none
        | some obIndex =>
          let priorSweeps := sws.filter (fun sweep =>
            match candles.findIdx? (fun c => c.t == sweep.time) with
            | some sweepIndex =>
              decide (sweepIndex < obIndex) && decide (obIndex - sweepIndex ≤ lookback)
            | none => false)
          if priorSweeps.length = 0 then
            some ({ high := ob.high, low := ob.low, time := ob.time,
                    strength := ob.strength * (7/10) } : MitigationBlock)
          else none)
    { bullishMitigation := scan orderBlocks.bullishOB sweeps.bullishSweeps
      bearishMitigation := scan orderBlocks.bearishOB sweeps.bearishSweeps }

/-- `detectRejectionBlocks(candles, lookback = 10)`: candles with a wick
of at least half the range.  The wick-ratio test uses the explicit JS
division (`jsDivJ`) because the denominator can be zero on degenerate
candles. -/
def detectRejectionBlocks (candles : List Candle) (lookback : ℕ) : Rejections :=
  if candles.length < lookback then ⟨[], []⟩
  else
    let recentCandles := candles.drop (candles.length - lookback)
    { bearishRejection := recentCandles.filterMap (fun candle =>
        let bodyTop := max candle.o candle.c
        let upperWick := candle.h - bodyTop
        let totalRange := candle.h - candle.l
        if (jsDivJ upperWick totalRange).geQ (1/2) then
          some { top := candle.h, bottom := candle.h - upperWick * (1/2),
                 time := candle.t, wickStrength := upperWick / totalRange }
        else none)
      bullishRejection := recentCandles.filterMap (fun candle =>
        let bodyBottom := min candle.o candle.c
        let lowerWick := bodyBottom - candle.l
        let totalRange := candle.h - candle.l
        if (jsDivJ lowerWick totalRange).geQ (1/2) then
          some { top := candle.l + lowerWick * (1/2), bottom := candle.l,
                 time := candle.t, wickStrength := lowerWick / totalRange }
        else none) }

/-- `detectInducement(candles, lookback = 5)`: a minor swing followed by
a move at least `3.33×` its own size. -/
def detectInducement (candles : List Candle) (lookback : ℕ) : Inducements :=
  if candles.length < lookback + 3 then ⟨[], []⟩
  else
    let sp := findSwingPoints candles 2   -- INDUCEMENT_SWING_LOOKBACK
    { bullishInducement :=
        (List.range sp.swingLows.length).filterMap (fun i =>
          if 1 ≤ i then
            let current := sp.swingLows.getD i ⟨0, 0, 0⟩
            let previous := sp.swingLows.getD (i - 1) ⟨0, 0, 0⟩
            if current.index + 3 < candles.length then
              let nextCandles := (candles.drop current.index).take lookback
              let maxPriceAfter := listMax (nextCandles.map (·.h))
              let moveSize := maxPriceAfter - current.price
              let swingSize := |current.price - previous.price|
              if 0 < swingSize ∧ (333/100) < moveSize / swingSize then
                some ({ price := current.price, time := current.time,
                        index := current.index, strength := moveSize / swingSize } :
                        InducementPt)
              else none
            else none
          else none)
      bearishInducement :=
        (List.range sp.swingHighs.length).filterMap (fun i =>
          if 1 ≤ i then
            let current := sp.swingHighs.getD i ⟨0, 0, 0⟩
            let previous := sp.swingHighs.getD (i - 1) ⟨0, 0, 0⟩
            if current.index + 3 < candles.length then
              let nextCandles := (candles.drop current.index).take lookback
              let minPriceAfter := listMin (nextCandles.map (·.l))
              let moveSize := current.price - minPriceAfter
              let swingSize := |current.price - previous.price|
              if 0 < swingSize ∧ (333/100) < moveSize / swingSize then
                some ({ price := current.price, time := current.time,
                        index := current.index, strength := moveSize / swingSize } :
                        InducementPt)
              else none
            else none
          else none) }

structure DynRange where
  rangeHigh : ℚ
  rangeLow : ℚ
  rangeSize : ℚ
  deriving DecidableEq

/-- `getDynamicTradingRange(candles, marketStructure)`. -/
def getDynamicTradingRange (candles : List Candle) (ms : MarketStructure) :
    Option DynRange :=
  if candles.length < 20 then none
  else if ms.swingHighs.length < 2 ∨ ms.swingLows.length < 2 then none
  else if ms.lastBOS = none ∧ ms.lastCHoCH = none then none
  else
    let dflt : SwingPt := ⟨0, 0, 0⟩
    let lastSwingHigh := ms.swingHighs.getD (ms.swingHighs.length - 1) dflt
    let lastSwingLow := ms.swingLows.getD (ms.swingLows.length - 1) dflt
    let prevSwingHigh := ms.swingHighs.getD (ms.swingHighs.length - 2) dflt
    let prevSwingLow := ms.swingLows.getD (ms.swingLows.length - 2) dflt
    let hl : ℚ × ℚ :=
      match ms.lastBOS with
      | some b =>
        match b.dir with
        | .bullish => (lastSwingHigh.price, lastSwingLow.price)
        | .bearish => (lastSwingHigh.price, lastSwingLow.price)
      | none =>
        (max lastSwingHigh.price prevSwingHigh.price,
         min lastSwingLow.price prevSwingLow.price)
    some { rangeHigh := hl.1, rangeLow := hl.2, rangeSize := hl.1 - hl.2 }

/-- `calculateOTE(rangeHigh, rangeLow)` (the `!rangeHigh`/`!rangeLow`
truthiness guards reject a literal 0 price). -/
def calculateOTE (rangeHigh rangeLow : ℚ) : Option OTELevels :=
  if rangeHigh = 0 ∨ rangeLow = 0 ∨ rangeHigh ≤ rangeLow then none
  else
    let rangeSize := rangeHigh - rangeLow
    some { fib618 := rangeLow + rangeSize * (618/1000)
           fib705 := rangeLow + rangeSize * (705/1000)
           fib786 := rangeLow + rangeSize * (786/1000)
           oteDiscountLow := rangeLow + rangeSize * (1 - 786/1000)
           oteDiscountHigh := rangeLow + rangeSize * (1 - 705/1000)
           otePremiumLow := rangeLow + rangeSize * (705/1000)
           otePremiumHigh := rangeLow + rangeSize * (786/1000)
           rangeHigh := rangeHigh, rangeLow := rangeLow, rangeSize := rangeSize }

/-- `isInOTEZone(currentPrice, oteData, direction)` (the
`!currentPrice` truthiness guard rejects a literal 0 price). -/
def isInOTEZone (currentPrice : ℚ) (oteData : Option OTELevels)
    (direction : TradeAction) : Bool :=
  match oteData with
  | none => false
  | some ote =>
    if currentPrice = 0 then false
    else match direction with
      | .BUY => decide (ote.oteDiscountLow ≤ currentPrice) &&
                decide (currentPrice ≤ ote.oteDiscountHigh)
      | .SELL => decide (ote.otePremiumLow ≤ currentPrice) &&
                 decide (currentPrice ≤ ote.otePremiumHigh)

/-- `calculatePremiumDiscount(candles, lookback = 40, marketStructure)`. -/
def calculatePremiumDiscount (candles : List Candle) (lookback : ℕ)
    (ms : MarketStructure) : Option PremiumDiscount :=
  if candles.length < lookback then none
  else
    let dyn := getDynamicTradingRange candles ms
    let hls : ℚ × ℚ × ℚ × Bool :=
      match dyn with
      | some d =>
        if 0 < d.rangeSize then (d.rangeHigh, d.rangeLow, d.rangeSize, true)
        else
          let recentCandles := candles.drop (candles.length - lookback)
          let hi := listMax (recentCandles.map (·.h))
          let lo := listMin (recentCandles.map (·.l))
          (hi, lo, hi - lo, false)
      | none =>
        let recentCandles := candles.drop (candles.length - lookback)
        let hi := listMax (recentCandles.map (·.h))
        let lo := listMin (recentCandles.map (·.l))
        (hi, lo, hi - lo, false)
    let rangeHigh := hls.1
    let rangeLow := hls.2.1
    let rangeSize := hls.2.2.1
    let isDynamic := hls.2.2.2
    if rangeSize = 0 then none
    else
      let lastCandle := cAt candles (candles.length - 1)
      let currentPrice := lastCandle.c
      let premiumLevel := rangeLow + rangeSize * (3/4)
      let discountLevel := rangeLow + rangeSize * (1/4)
      let equilibriumLevel := rangeLow + rangeSize * (1/2)
      let currentZone : ZoneTag :=
        if premiumLevel ≤ currentPrice then .PREMIUM
        else if currentPrice ≤ discountLevel then .DISCOUNT
        else .EQUILIBRIUM
      some { rangeHigh := rangeHigh, rangeLow := rangeLow, rangeSize := rangeSize
             premiumLevel := premiumLevel, equilibriumLevel := equilibriumLevel
             discountLevel := discountLevel, currentPrice := currentPrice
             currentZone := currentZone
             zonePercentage := jsRound ((currentPrice - rangeLow) / rangeSize * 100)
             isDynamic := isDynamic
             bias := match currentZone with
               | .PREMIUM => .BEARISH
               | .DISCOUNT => .BULLISH
               | .EQUILIBRIUM => .NEUTRAL }

/-- `detectMarketPhase(candles)`. -/
def detectMarketPhase (candles : List Candle) : Phase :=
  if candles.length < 20 then .UNKNOWN
  else
    let atr := calculateATRsmc candles 14
    let last5 := candles.drop (candles.length - 5)
    let avg5Range := (last5.map (fun c => c.h - c.l)).sum / 5
    if atr.current * (6/5) < avg5Range then .EXPANSION
    else if avg5Range < atr.current * (7/10) then .CONTRACTION
    else .RANGING

/-- `calculateVelocityDelta(candles)` (identical in the SMC library and
in the v12 engine). -/
def calculateVelocityDelta (candles : List Candle) : VelocityDelta :=
  if candles.length < 10 then ⟨0, 0, .NONE⟩
  else
    let vNow := ((cAt candles (candles.length - 1)).c -
      (cAt candles (candles.length - 4)).c) / 3
    let vPrev := ((cAt candles (candles.length - 4)).c -
      (cAt candles (candles.length - 7)).c) / 3
    let delta := vNow - vPrev
    let aligned : VAligned :=
      if 0 < vNow ∧ 0 < delta then .BULLISH
      else if vNow < 0 ∧ delta < 0 then .BEARISH
      else .NONE
    ⟨vNow, delta, aligned⟩

/-- `detectPriceActionPatterns(candles)` (textually identical in the SMC
library and in the v12 engine, wick ratio 0.667 / body ratio 0.333). -/
def detectPriceActionPatterns (candles : List Candle) : PriceAction :=
  if candles.length < 3 then ⟨none, none⟩
  else
    let lastCandle := cAt candles (candles.length - 1)
    let prevCandle := cAt candles (candles.length - 2)
    let bodySize := |lastCandle.c - lastCandle.o|
    let totalRange := lastCandle.h - lastCandle.l
    let upperWick := lastCandle.h - max lastCandle.o lastCandle.c
    let lowerWick := min lastCandle.o lastCandle.c - lastCandle.l
    let pinBar : Option PinBar :=
      if totalRange * (667/1000) < upperWick ∧ bodySize < totalRange * (333/1000) then
        some ⟨.BEARISH_PIN, upperWick / totalRange⟩
      else if totalRange * (667/1000) < lowerWick ∧ bodySize < totalRange * (333/1000) then
        some ⟨.BULLISH_PIN, lowerWick / totalRange⟩
      else none
    let prevBodySize := |prevCandle.c - prevCandle.o|
    let engulfing : Option EngulfType :=
      if lastCandle.o < lastCandle.c ∧ prevCandle.c < prevCandle.o then
        (if prevCandle.o < lastCandle.c ∧ lastCandle.o < prevCandle.c ∧
            prevBodySize < bodySize then some .BULLISH_ENGULFING else none)
      else if lastCandle.c < lastCandle.o ∧ prevCandle.o < prevCandle.c then
        (if lastCandle.c < prevCandle.o ∧ prevCandle.c < lastCandle.o ∧
            prevBodySize < bodySize then some .BEARISH_ENGULFING else none)
      else none
    ⟨pinBar, engulfing⟩

/-- `getSNRLevels(candles)`: the last swing high/low plus all equal
levels; only the prices are ever consumed. -/
def getSNRLevels (candles : List Candle) : List ℚ :=
  let sp := findSwingPoints candles 5
  let eq := detectEqualLevels candles 40 pipSize
  (if 0 < sp.swingHighs.length then
     [(sp.swingHighs.getD (sp.swingHighs.length - 1) ⟨0, 0, 0⟩).price] else []) ++
  (if 0 < sp.swingLows.length then
     [(sp.swingLows.getD (sp.swingLows.length - 1) ⟨0, 0, 0⟩).price] else []) ++
  eq.eqHighs.map (·.price) ++ eq.eqLows.map (·.price)

/-- `analyzeSmartMoney(candles)` (`pair` is undefined at every call
site, so `pip = 0.0001`). -/
def analyzeSmartMoney (candles : List Candle) : Option SmcData :=
  if candles.length < 25 then none
  else
    let ms0 := detectMarketStructure candles
    let ms := { ms0 with m15Trend := smcTrendContext candles }
    let equalLevels := detectEqualLevels candles 40 pipSize
    let sweeps := detectLiquiditySweeps candles 5
    let orderBlocksRaw := detectOrderBlocks candles 10
    let imbalanceRaw := detectImbalance candles 10 pipSize
    let orderBlocks : OrderBlocks :=
      { bullishOB := orderBlocksRaw.bullishOB.map (markMitigatedOB candles true)
        bearishOB := orderBlocksRaw.bearishOB.map (markMitigatedOB candles false) }
    let imbalance : Imbalances :=
      { bullishIMB := imbalanceRaw.bullishIMB.map (markMitigatedImb candles true)
        bearishIMB := imbalanceRaw.bearishIMB.map (markMitigatedImb candles false) }
    let breakerBlocks := detectBreakerBlocks candles orderBlocks sweeps 10
    let mitigationBlocks := detectMitigationBlocks candles orderBlocks sweeps 10
    let rejectionBlocks := detectRejectionBlocks candles 10
    let inducement := detectInducement candles 5
    let premiumDiscount := calculatePremiumDiscount candles 40 ms
    let ote : Option OTELevels :=
      match premiumDiscount with
      | some pd =>
        if pd.rangeHigh ≠ 0 ∧ pd.rangeLow ≠ 0 then calculateOTE pd.rangeHigh pd.rangeLow
        else none
      | none => none
    some { marketStructure := ms
           liquidity := { equalLevels := equalLevels, sweeps := sweeps }
           orderBlocks := orderBlocks
           imbalance := imbalance
           breakerBlocks := breakerBlocks
           mitigationBlocks := mitigationBlocks
           rejectionBlocks := rejectionBlocks
           inducement := inducement
           premiumDiscount := premiumDiscount
           ote := ote
           marketPhase := detectMarketPhase candles
           velocityDelta := calculateVelocityDelta candles }

/-!
## v12 fixed-scoring engine (`pocket-scout-v12-engine.js`, `V12Engine`)

The engine's own `detectPriceActionPatterns`, `calculateVelocityDelta`
are textually identical to the SMC library's and are shared above;
`calculateATR` differs (mean over the last 100 values, unguarded ratio)
and is `calculateATRv12`.  `pair` is used only for logging and dropped.
-/

inductive CTrend where
  | NEUTRAL
  | BULLISH
  | BEARISH
  | STRONGLY_BULLISH
  | STRONGLY_BEARISH
  deriving DecidableEq

/-- `combinedTrend.includes('BULLISH')` on the trend string. -/
def CTrend.includesBullish : CTrend → Bool
  | .BULLISH => true
  | .STRONGLY_BULLISH => true
  | _ => false

/-- `combinedTrend.includes('BEARISH')` on the trend string. -/
def CTrend.includesBearish : CTrend → Bool
  | .BEARISH => true
  | .STRONGLY_BEARISH => true
  | _ => false

structure TrendContext where
  m15Trend : Trend
  h1Trend : Trend
  combinedTrend : CTrend
  strength : ℤ
  shouldPenalizeBuy : Bool
  shouldPenalizeSell : Bool
  deriving DecidableEq

def TREND_GUARD_EMA_SLOPE_THRESHOLD : ℚ := 1/20000

/-- `calculateQuickEMA(data, period)`. -/
def calculateQuickEMA (data : List ℚ) (period : ℕ) : List ℚ :=
  if data.length < period then []
  else
    let k := 2 / ((period : ℚ) + 1)
    let ema0 := (data.take period).sum / period
    ((data.drop period).foldl
      (fun (acc : List ℚ × ℚ) d =>
        let e := d * k + acc.2 * (1 - k)
        (acc.1 ++ [e], e))
      ([ema0], ema0)).1

/-- `calculateTrendContext(candles)` of the v12 engine (virtual
M15 via EMA5 over the last 15 closes, virtual H1 via EMA20 over the last
35 closes). -/
def calculateTrendContextV12 (candles : List Candle) : TrendContext :=
  if candles.length < 15 then
    ⟨.NEUTRAL, .NEUTRAL, .NEUTRAL, 0, false, false⟩
  else
    let closes := candles.map (·.c)
    let currentPrice := closes.getD (closes.length - 1) 0
    let m15 : Trend :=
      let m15Closes := closes.drop (closes.length - 15)
      let ema5 := calculateQuickEMA m15Closes 5
      if 3 ≤ ema5.length then
        let recentSlope :=
          (ema5.getD (ema5.length - 1) 0 - ema5.getD (ema5.length - 3) 0) / 2
        let priceAboveEma := ema5.getD (ema5.length - 1) 0 < currentPrice
        if TREND_GUARD_EMA_SLOPE_THRESHOLD < recentSlope ∧ priceAboveEma then .BULLISH
        else if recentSlope < -TREND_GUARD_EMA_SLOPE_THRESHOLD ∧ ¬ priceAboveEma then .BEARISH
        else .NEUTRAL
      else .NEUTRAL
    let h1 : Trend :=
      if 35 ≤ closes.length then
        let h1Closes := closes.drop (closes.length - 35)
        let ema20 := calculateQuickEMA h1Closes 20
        if 5 ≤ ema20.length then
          let recentSlope :=
            (ema20.getD (ema20.length - 1) 0 - ema20.getD (ema20.length - 5) 0) / 4
          let priceAboveEma := ema20.getD (ema20.length - 1) 0 < currentPrice
          if TREND_GUARD_EMA_SLOPE_THRESHOLD < recentSlope ∧ priceAboveEma then .BULLISH
          else if recentSlope < -TREND_GUARD_EMA_SLOPE_THRESHOLD ∧ ¬ priceAboveEma then .BEARISH
          else .NEUTRAL
        else .NEUTRAL
      else .NEUTRAL
    if m15 = .BULLISH ∧ h1 = .BULLISH then
      ⟨m15, h1, .STRONGLY_BULLISH, 100, false, true⟩
    else if m15 = .BEARISH ∧ h1 = .BEARISH then
      ⟨m15, h1, .STRONGLY_BEARISH, 100, true, false⟩
    else if m15 = h1 ∧ m15 ≠ .NEUTRAL then
      -- dead in practice (equal non-neutral trends are caught above)
      ⟨m15, h1, (if m15 = .BULLISH then CTrend.BULLISH else CTrend.BEARISH), 70,
        decide (m15 = .BEARISH), decide (m15 = .BULLISH)⟩
    else if m15 ≠ .NEUTRAL ∨ h1 ≠ .NEUTRAL then
      let combined : Trend := if h1 ≠ .NEUTRAL then h1 else m15
      ⟨m15, h1,
        (if combined = .BULLISH then CTrend.BULLISH
         else if combined = .BEARISH then CTrend.BEARISH else CTrend.NEUTRAL), 40,
        decide (combined = .BEARISH), decide (combined = .BULLISH)⟩
    else ⟨m15, h1, .NEUTRAL, 0, false, false⟩

/-- The engine's output (the human-readable `reasons`, `durationReason`
and `indicatorValues` payloads are omitted; no code reads them back). -/
structure EngineSignal where
  action : Option TradeAction
  confidence : ℤ
  tradeDuration : ℤ
  deriving DecidableEq

/-- The CONFIDENCE_THRESHOLDS ladder of the v12 engine (thresholds 30,
60, 95, 130, 220, 260, 300, 350, 400; CONFIDENCE_INCREMENT 10). -/
def v12ConfidenceFromRaw (rawScore : ℚ) : ℤ :=
  if (400 : ℚ) ≤ rawScore then 90 + min 10 ⌊(rawScore - 400) / 10⌋
  else if (350 : ℚ) ≤ rawScore then 80 + ⌊(rawScore - 350) / (400 - 350) * 10⌋
  else if (300 : ℚ) ≤ rawScore then 70 + ⌊(rawScore - 300) / (350 - 300) * 10⌋
  else if (260 : ℚ) ≤ rawScore then 60 + ⌊(rawScore - 260) / (300 - 260) * 10⌋
  else if (220 : ℚ) ≤ rawScore then 50 + ⌊(rawScore - 220) / (260 - 220) * 10⌋
  else if (130 : ℚ) ≤ rawScore then 40 + ⌊(rawScore - 130) / (220 - 130) * 10⌋
  else if (95 : ℚ) ≤ rawScore then 30 + ⌊(rawScore - 95) / (130 - 95) * 10⌋
  else if (60 : ℚ) ≤ rawScore then 20 + ⌊(rawScore - 60) / (95 - 60) * 10⌋
  else if (30 : ℚ) ≤ rawScore then 10 + ⌊(rawScore - 30) / (60 - 30) * 10⌋
  else max 1 (min 9 (⌊rawScore / 30 * 9⌋ + 1))

/-- The v12 confidence post-processing: clamp at 100, halve when
conflicted, cap at 45 without FVG+OB confluence, cap at 45 outside the
OTE zone (only when an OTE range exists), clamp at 100 again.
`oteInZone` is `none` when `smcData.ote` is absent (gate skipped). -/
def v12FinalConfidence (rawScore : ℚ) (isConflicted : Bool)
    (hasFVGandOB : Bool) (oteInZone : Option Bool) : ℤ :=
  let c1 := min 100 (v12ConfidenceFromRaw rawScore)
  let c2 := if isConflicted then ⌊(c1 : ℚ) * (1/2)⌋ else c1
  let c3 := if 50 ≤ c2 ∧ ¬ hasFVGandOB then min 45 c2 else c2
  let c4 := match oteInZone with
    | some inZone => if 50 ≤ c3 ∧ inZone = false then min 45 c3 else c3
    | none => c3
  min 100 c4

/-- Scores and quality flags accumulated by the `if (smcData)` block of
`generateSignal` (buyScore, sellScore, `qualityComponents.orderBlock`,
`qualityComponents.fvg`).  The two flag-setting sites inside the CHoCH
confluence branch require the same lists to be non-empty as the
unconditional order-block / FVG sites, so the flags reduce to the
disjunctions below. -/
def v12SmcScores (candles : List Candle) (trendContext : TrendContext)
    (sd : SmcData) : ℚ × ℚ × Bool × Bool :=
  let fvgBull := sd.imbalance.bullishIMB
  let fvgBear := sd.imbalance.bearishIMB
  let obBull := sd.orderBlocks.bullishOB
  let obBear := sd.orderBlocks.bearishOB
  -- CHoCH (Change of Character): OB confluence 45, FVG confluence 50, alone 45
  let b1 : ℚ :=
    match sd.marketStructure.lastCHoCH with
    | some ch =>
      if ch.dir = .bullish then
        (if obBull ≠ [] then 45 else if fvgBull ≠ [] then 50 else 45)
      else 0
    | none => 0
  let s1 : ℚ :=
    match sd.marketStructure.lastCHoCH with
    | some ch =>
      if ch.dir = .bearish then
        (if obBear ≠ [] then 45 else if fvgBear ≠ [] then 50 else 45)
      else 0
    | none => 0
  -- Liquidity sweep + reversal: 95
  let b2 := b1 + (if sd.liquidity.sweeps.bullishSweeps ≠ [] then 95 else 0)
  let s2 := s1 + (if sd.liquidity.sweeps.bearishSweeps ≠ [] then 95 else 0)
  -- BOS in strong trend: 35
  let b3 := b2 + (match sd.marketStructure.lastBOS with
    | some bos => if 70 ≤ trendContext.strength ∧ bos.dir = .bullish then 35 else 0
    | none => 0)
  let s3 := s2 + (match sd.marketStructure.lastBOS with
    | some bos => if 70 ≤ trendContext.strength ∧ bos.dir = .bearish then 35 else 0
    | none => 0)
  -- Order blocks: 50
  let b4 := b3 + (if obBull ≠ [] then 50 else 0)
  let s4 := s3 + (if obBear ≠ [] then 50 else 0)
  -- FVG fill: 35, plus the FVG+displacement bonus.  The bonus compares
  -- `lastFVG.high - lastFVG.low`, but imbalance zones carry only
  -- `top`/`bottom`, so the JS difference is `undefined - undefined = NaN`
  -- and `NaN > avgCandleRange * 1.2` is always false: the 70-point bonus
  -- is dead code, translated as the explicit NaN comparison.
  let avgCandleRange := ((candles.drop (candles.length - 5)).map
    (fun c => c.h - c.l)).sum / 5
  let fvgSize : JNum := .nan
  let b5 := b4 + (if fvgBull ≠ [] then 35 else 0)
  let b6 := b5 + (if fvgBull ≠ [] ∧ 3 ≤ candles.length ∧
      fvgSize.gtQ (avgCandleRange * (6/5)) = true then 70 else 0)
  let s5 := s4 + (if fvgBear ≠ [] then 35 else 0)
  let s6 := s5 + (if fvgBear ≠ [] ∧ 3 ≤ candles.length ∧
      fvgSize.gtQ (avgCandleRange * (6/5)) = true then 70 else 0)
  -- Liquidity pool proximity: 15
  let s7 := s6 + (if sd.liquidity.equalLevels.eqHighs ≠ [] then 15 else 0)
  let b7 := b6 + (if sd.liquidity.equalLevels.eqLows ≠ [] then 15 else 0)
  -- Breaker blocks: 85
  let b8 := b7 + (if sd.breakerBlocks.bullishBreakers ≠ [] then 85 else 0)
  let s8 := s7 + (if sd.breakerBlocks.bearishBreakers ≠ [] then 85 else 0)
  -- Rejection blocks: 35
  let b9 := b8 + (if sd.rejectionBlocks.bullishRejection ≠ [] then 35 else 0)
  let s9 := s8 + (if sd.rejectionBlocks.bearishRejection ≠ [] then 35 else 0)
  -- Premium/discount alignment: 45
  let b10 := b9 + (match sd.premiumDiscount with
    | some pd => if pd.currentZone = .DISCOUNT ∧ pd.bias = .BULLISH then 45 else 0
    | none => 0)
  let s10 := s9 + (match sd.premiumDiscount with
    | some pd => if pd.currentZone = .PREMIUM ∧ pd.bias = .BEARISH then 45 else 0
    | none => 0)
  -- Inducement: 12
  let b11 := b10 + (if sd.inducement.bullishInducement ≠ [] then 12 else 0)
  let s11 := s10 + (if sd.inducement.bearishInducement ≠ [] then 12 else 0)
  -- Mitigation blocks: 15
  let b12 := b11 + (if sd.mitigationBlocks.bullishMitigation ≠ [] then 15 else 0)
  let s12 := s11 + (if sd.mitigationBlocks.bearishMitigation ≠ [] then 15 else 0)
  let hasOB := decide (obBull ≠ []) || decide (obBear ≠ []) ||
    decide (sd.breakerBlocks.bullishBreakers ≠ []) ||
    decide (sd.breakerBlocks.bearishBreakers ≠ [])
  let hasFVG := decide (fvgBull ≠ []) || decide (fvgBear ≠ [])
  (b12, s12, hasOB, hasFVG)

/-- `V12Engine.generateSignal(candles, pair)` (`pair` is only logged). -/
def generateSignalV12 (candles : List Candle) : Option EngineSignal :=
  if candles.length < 35 then none
  else
    let atrData := calculateATRv12 candles 14
    let isLowVolatility := atrData.ratio.ltQ (4/5)
    let smcData := analyzeSmartMoney candles
    let trendContext := calculateTrendContextV12 candles
    let priceAction := detectPriceActionPatterns candles
    let vDelta := calculateVelocityDelta candles
    let lastCandle := cAt candles (candles.length - 1)
    let smc : ℚ × ℚ × Bool × Bool := match smcData with
      | some sd => v12SmcScores candles trendContext sd
      | none => (0, 0, false, false)
    let hasOB := smc.2.2.1
    let hasFVG := smc.2.2.2
    -- Price-action patterns: bullish pin +25, bearish pin −50 (toxic),
    -- engulfing ±20
    let b13 := smc.1 + (if priceAction.pinBar.map (·.type) = some .BULLISH_PIN then 25 else 0)
    let s13 := smc.2.1 + (if priceAction.pinBar.map (·.type) = some .BEARISH_PIN then (-50 : ℚ) else 0)
    let b14 := b13 + (if priceAction.engulfing = some .BULLISH_ENGULFING then 20 else 0)
    let s14 := s13 + (if priceAction.engulfing = some .BEARISH_ENGULFING then 20 else 0)
    -- Trend guard alignment: +20
    let b15 := b14 + (if 70 ≤ trendContext.strength ∧
        trendContext.combinedTrend.includesBullish then 20 else 0)
    let s15 := s14 + (if 70 ≤ trendContext.strength ∧
        trendContext.combinedTrend.includesBearish then 20 else 0)
    -- Velocity delta alignment: +45
    let b16 := b15 + (if vDelta.aligned = .BULLISH then 45 else 0)
    let s16 := s15 + (if vDelta.aligned = .BEARISH then 45 else 0)
    -- Counter-trend without CHoCH: −70 (`!smcData?.marketStructure.lastCHoCH`
    -- is true when smcData itself is null)
    let noCHoCH : Bool := match smcData with
      | some sd => decide (sd.marketStructure.lastCHoCH = none)
      | none => true
    let b17 := b16 + (if trendContext.shouldPenalizeBuy && noCHoCH then (-70 : ℚ) else 0)
    let s17 := s16 + (if trendContext.shouldPenalizeSell && noCHoCH then (-70 : ℚ) else 0)
    -- Weak trend: −40 on the currently-stronger side
    let b18 := b17 + (if trendContext.strength < 40 ∧ 0 < trendContext.strength ∧
        s17 < b17 then (-40 : ℚ) else 0)
    let s18 := s17 + (if trendContext.strength < 40 ∧ 0 < trendContext.strength ∧
        b17 < s17 then (-40 : ℚ) else 0)
    -- Premium/discount misalignment: −60 (two sequential ifs)
    let pdZone := match smcData with
      | some sd => sd.premiumDiscount
      | none => none
    let b19 := b18 + (match pdZone with
      | some pd => if pd.currentZone = .PREMIUM ∧ s18 < b18 then (-60 : ℚ) else 0
      | none => 0)
    let s19 := s18 + (match pdZone with
      | some pd => if pd.currentZone = .DISCOUNT ∧ b19 < s18 then (-60 : ℚ) else 0
      | none => 0)
    -- Low volatility: −50 on the stronger side
    let b20 := b19 + (if isLowVolatility ∧ s19 < b19 then (-50 : ℚ) else 0)
    let s20 := s19 + (if isLowVolatility ∧ b19 < s19 then (-50 : ℚ) else 0)
    -- HTF divergence: −40 against the M15 trend
    let s21 := s20 + (if trendContext.m15Trend = .BULLISH ∧ b20 < s20 then (-40 : ℚ) else 0)
    let b21 := b20 + (if trendContext.m15Trend = .BEARISH ∧ s20 < b20 then (-40 : ℚ) else 0)
    -- NEUTRAL H1: −20 on the stronger side
    let b22 := b21 + (if trendContext.h1Trend = .NEUTRAL ∧ s21 < b21 then (-20 : ℚ) else 0)
    let s22 := s21 + (if trendContext.h1Trend = .NEUTRAL ∧ b21 < s21 then (-20 : ℚ) else 0)
    -- Counter price action (direction frozen here, as in the source)
    let strongerDirection : TradeAction := if s22 < b22 then .BUY else .SELL
    let s23 := s22 + (if strongerDirection = .SELL ∧
        priceAction.pinBar.map (·.type) = some .BULLISH_PIN then (-40 : ℚ) else 0)
    let s24 := s23 + (if strongerDirection = .SELL ∧
        priceAction.engulfing = some .BULLISH_ENGULFING then (-30 : ℚ) else 0)
    let b23 := b22 + (if strongerDirection = .BUY ∧
        priceAction.pinBar.map (·.type) = some .BEARISH_PIN then (-20 : ℚ) else 0)
    let b24 := b23 + (if strongerDirection = .BUY ∧
        priceAction.engulfing = some .BEARISH_ENGULFING then (-30 : ℚ) else 0)
    -- Market-structure divergence: −35
    let s25 := s24 + (match smcData with
      | some sd => if sd.marketStructure.structTag = .HH_HL ∧
          strongerDirection = .SELL then (-35 : ℚ) else 0
      | none => 0)
    let b25 := b24 + (match smcData with
      | some sd => if sd.marketStructure.structTag = .LH_LL ∧
          strongerDirection = .BUY then (-35 : ℚ) else 0
      | none => 0)
    -- Floor scores at 0
    let bF := max 0 b25
    let sF := max 0 s25
    -- Confluence multipliers
    let trendMultiplier : ℚ :=
      if trendContext.m15Trend = .BULLISH ∧ sF < bF then 5/4
      else if trendContext.m15Trend = .BEARISH ∧ bF < sF then 5/4
      else if trendContext.m15Trend = .BULLISH ∧ bF < sF then 3/4
      else if trendContext.m15Trend = .BEARISH ∧ sF < bF then 3/4
      else 1
    let pdZoneMultiplier : ℚ :=
      match pdZone with
      | some pd =>
        if (pd.currentZone = .DISCOUNT ∧ pd.zonePercentage < 20 ∧ sF < bF) ∨
           (pd.currentZone = .PREMIUM ∧ 80 < pd.zonePercentage ∧ bF < sF)
        then 6/5 else 1
      | none => 1
    let volMultiplier : ℚ :=
      if atrData.ratio.gtQ 1 then 23/20
      else if atrData.ratio.ltQ (4/5) then 1/2
      else 1
    let bM := if sF < bF then
        ((⌊bF * trendMultiplier * pdZoneMultiplier * volMultiplier⌋ : ℤ) : ℚ) else bF
    let sM := if bF < sF then
        ((⌊sF * trendMultiplier * pdZoneMultiplier * volMultiplier⌋ : ℤ) : ℚ) else sF
    -- Conflict detection
    let maxScore := max bM sM
    let minScore := min bM sM
    let scoreDifference := if 0 < maxScore then (maxScore - minScore) / maxScore * 100 else 0
    let isConflicted := decide (scoreDifference < 20)
    -- Final decision
    let ar : TradeAction × ℚ :=
      if sM < bM then (.BUY, bM)
      else if bM < sM then (.SELL, sM)
      else (.BUY, max (max bM sM) 1)
    let action := ar.1
    let rawScore := ar.2
    let oteInZone : Option Bool :=
      match smcData with
      | some sd =>
        match sd.ote with
        | some ote => some (isInOTEZone lastCandle.c (some ote) action)
        | none => none
      | none => none
    let confidence := v12FinalConfidence rawScore isConflicted (hasFVG && hasOB) oteInZone
    -- Dynamic trade duration: default 3; LS sweep + FVG at ≥80%: 5
    let hasLSSweep : Bool := match smcData with
      | some sd => decide (sd.liquidity.sweeps.bullishSweeps ≠ []) ||
          decide (sd.liquidity.sweeps.bearishSweeps ≠ [])
      | none => false
    let hasFVGInData : Bool := match smcData with
      | some sd => decide (sd.imbalance.bullishIMB ≠ []) ||
          decide (sd.imbalance.bearishIMB ≠ [])
      | none => false
    let tradeDuration : ℤ :=
      if hasLSSweep && hasFVGInData && decide (80 ≤ confidence) then 5 else 3
    some { action := some action, confidence := confidence, tradeDuration := tradeDuration }

theorem floor_scaled_bounds (raw lo hi : ℚ) (hlo : lo ≤ raw) (hhi : raw < hi)
    (_hlt : lo < hi) :
    0 ≤ ⌊(raw - lo) / (hi - lo) * 10⌋ ∧ ⌊(raw - lo) / (hi - lo) * 10⌋ ≤ 9 := by
  constructor
  · apply Int.floor_nonneg.mpr
    apply mul_nonneg (div_nonneg (by linarith) (by linarith)) (by norm_num)
  · have h1 : (raw - lo) / (hi - lo) < 1 := (div_lt_one (by linarith)).mpr (by linarith)
    have hx : (raw - lo) / (hi - lo) * 10 < 10 := by linarith
    have h2 : ⌊(raw - lo) / (hi - lo) * 10⌋ < (10 : ℤ) := by
      apply Int.floor_lt.mpr
      exact_mod_cast hx
    omega

/-- The threshold ladder always lands in [0, 100]. -/
theorem v12ConfidenceFromRaw_bounds (raw : ℚ) :
    0 ≤ v12ConfidenceFromRaw raw ∧ v12ConfidenceFromRaw raw ≤ 100 := by
  unfold v12ConfidenceFromRaw
  split_ifs with h1 h2 h3 h4 h5 h6 h7 h8 h9
  · have hf : (0 : ℤ) ≤ ⌊(raw - 400) / 10⌋ :=
      Int.floor_nonneg.mpr (div_nonneg (by linarith) (by norm_num))
    constructor
    · have := le_min (by norm_num : (0:ℤ) ≤ 10) hf
      omega
    · have := min_le_left (10 : ℤ) ⌊(raw - 400) / 10⌋
      omega
  · have := floor_scaled_bounds raw 350 400 h2 (by linarith) (by norm_num)
    omega
  · have := floor_scaled_bounds raw 300 350 h3 (by linarith) (by norm_num)
    omega
  · have := floor_scaled_bounds raw 260 300 h4 (by linarith) (by norm_num)
    omega
  · have := floor_scaled_bounds raw 220 260 h5 (by linarith) (by norm_num)
    omega
  · have := floor_scaled_bounds raw 130 220 h6 (by linarith) (by norm_num)
    omega
  · have := floor_scaled_bounds raw 95 130 h7 (by linarith) (by norm_num)
    omega
  · have := floor_scaled_bounds raw 60 95 h8 (by linarith) (by norm_num)
    omega
  · have := floor_scaled_bounds raw 30 60 h9 (by linarith) (by norm_num)
    omega
  · constructor
    · have := le_max_left (1 : ℤ) (min 9 (⌊raw / 30 * 9⌋ + 1))
      omega
    · have h1 : min (9:ℤ) (⌊raw / 30 * 9⌋ + 1) ≤ 9 := min_le_left _ _
      have h2 : max (1:ℤ) (min 9 (⌊raw / 30 * 9⌋ + 1)) ≤ 9 :=
        max_le (by norm_num) h1
      omega

/-- The whole v12 confidence post-processing lands in [0, 100] for every
raw score and every combination of the conflict / confluence / OTE
flags. -/
theorem v12FinalConfidence_bounds (raw : ℚ) (c : Bool) (f : Bool) (o : Option Bool) :
    0 ≤ v12FinalConfidence raw c f o ∧ v12FinalConfidence raw c f o ≤ 100 := by
  obtain ⟨hlo, hhi⟩ := v12ConfidenceFromRaw_bounds raw
  unfold v12FinalConfidence
  have h1lo : (0 : ℤ) ≤ min 100 (v12ConfidenceFromRaw raw) := le_min (by norm_num) hlo
  have h1hi : min 100 (v12ConfidenceFromRaw raw) ≤ 100 := min_le_left _ _
  set c1 := min 100 (v12ConfidenceFromRaw raw) with hc1
  have h2 : 0 ≤ (if c then ⌊(c1 : ℚ) * (1/2)⌋ else c1) ∧
      (if c then ⌊(c1 : ℚ) * (1/2)⌋ else c1) ≤ 100 := by
    split
    · constructor
      · apply Int.floor_nonneg.mpr
        apply mul_nonneg (by exact_mod_cast h1lo) (by norm_num)
      · have hle : (c1 : ℚ) * (1/2) ≤ (c1 : ℚ) := by
          have : (0:ℚ) ≤ (c1 : ℚ) := by exact_mod_cast h1lo
          linarith
        have := Int.floor_le_floor hle
        rw [Int.floor_intCast] at this
        omega
    · exact ⟨h1lo, h1hi⟩
  set c2 := if c then ⌊(c1 : ℚ) * (1/2)⌋ else c1 with hc2
  have h3 : 0 ≤ (if 50 ≤ c2 ∧ ¬ f = true then min 45 c2 else c2) ∧
      (if 50 ≤ c2 ∧ ¬ f = true then min 45 c2 else c2) ≤ 100 := by
    split
    · have := le_min (by norm_num : (0:ℤ) ≤ 45) h2.1
      have := min_le_left (45 : ℤ) c2
      omega
    · exact h2
  set c3 := if 50 ≤ c2 ∧ ¬ f = true then min 45 c2 else c2 with hc3
  rcases o with _ | b
  · exact ⟨le_min (by norm_num) h3.1, min_le_left _ _⟩
  · refine ⟨le_min (by norm_num) ?_, min_le_left _ _⟩
    split
    · have := le_min (by norm_num : (0:ℤ) ≤ 45) h3.1
      omega
    · exact h3.1

/-- Every signal the v12 engine emits carries its confidence through
`v12FinalConfidence`. -/
theorem generateSignalV12_confidence_bounds (candles : List Candle) (s : EngineSignal)
    (h : generateSignalV12 candles = some s) :
    0 ≤ s.confidence ∧ s.confidence ≤ 100 := by
  unfold generateSignalV12 at h
  split at h
  · exact absurd h (by simp)
  · simp only [] at h
    cases Option.some.inj h
    exact v12FinalConfidence_bounds _ _ _ _

/-!
## v14 state-machine engine (`V14Engine`, same file)
-/

inductive EngineStatus where
  | IDLE
  | LIQUIDITY_SWEPT
  | DISPLACEMENT
  | CHOCH
  | RETEST
  deriving DecidableEq

structure V14SetupData where
  lastBQI : Option ℤ
  poi : Option (OrderBlocks × Imbalances)
  deriving DecidableEq

structure V14State where
  status : EngineStatus
  direction : Option TradeAction
  lastUpdateCandle : ℕ
  lastSignalTimestamp : ℤ
  setupData : V14SetupData
  deriving DecidableEq

/-- `resetState(pair, existingTimestamp)` of the v14 engine. -/
def v14ResetState (existingTimestamp : ℤ) : V14State :=
  { status := .IDLE, direction := none, lastUpdateCandle := 0,
    lastSignalTimestamp := existingTimestamp, setupData := ⟨none, none⟩ }

def actionStr : TradeAction → String
  | .BUY => "BUY"
  | .SELL => "SELL"

def trendStr : Trend → String
  | .BULLISH => "BULLISH"
  | .BEARISH => "BEARISH"
  | .RANGING => "RANGING"
  | .NEUTRAL => "NEUTRAL"

/-- `smcData.marketStructure.m15Trend === pairState.direction` compares a
trend string (`'BULLISH'`/...) with a direction string
(`'BUY'`/`'SELL'`/`null`): translated literally on the string
encodings.  It can never be true. -/
def trendEqDirection : Trend → Option TradeAction → Bool
  | t, some a => trendStr t == actionStr a
  | _, none => false

/-- `calculateConfidence(pairState, smcData, extraFactors)`.  Only the
`status`, `direction` and `setupData.lastBQI` fields of the state are
read (several call sites pass object literals with just these). -/
def calculateConfidence (status : EngineStatus) (direction : Option TradeAction)
    (lastBQI : Option ℤ) (smcData : SmcData) (momentum pa : Bool) : ℤ :=
  let s1 : ℤ := if status = .LIQUIDITY_SWEPT then 20 else 0
  let s2 := s1 + (if status = .DISPLACEMENT then 20 + 10 else 0)
  let s3 := s2 + (if status = .CHOCH then 20 + 10 + 10 else 0)
  let s4 := s3 + (if status = .RETEST then 20 + 10 + 10 + 10 else 0)
  let bqi := lastBQI.getD 0   -- `pairState.setupData.lastBQI || 0`
  let s5 := s4 + (if 45 ≤ bqi then 10 else 0)
  let s6 := s5 + (if trendEqDirection smcData.marketStructure.m15Trend direction then 10 else 0)
  let s7 := s6 + (if smcData.marketPhase ≠ .CONTRACTION then 7 else 0)
  let s8 := s7 + (if momentum then 13 else 0)
  let s9 := s8 + (if pa then 10 else 0)
  min 100 s9

/-- `checkVelocityStrike(candles, smcData)`. -/
def checkVelocityStrike (candles : List Candle) (smcData : SmcData) :
    Option EngineSignal :=
  let vNow := smcData.velocityDelta.velocity
  let totalV := ((List.range 10).map (fun i0 =>
    |((cAt candles (candles.length - (i0 + 1))).c -
      (cAt candles (candles.length - (i0 + 1) - 3)).c) / 3|)).sum
  let avgV := totalV / 10
  let lastCandle := cAt candles (candles.length - 1)
  let body := |lastCandle.c - lastCandle.o| /
    (if lastCandle.h - lastCandle.l = 0 then 1/100000 else lastCandle.h - lastCandle.l)
  if avgV * (9/5) < |vNow| ∧ (7/10) < body then
    let window := (candles.drop (candles.length - 6)).take 5   -- slice(-6, -1)
    let isPivot :=
      (0 < vNow ∧ listMax (window.map (·.h)) < lastCandle.c) ∨
      (vNow < 0 ∧ lastCandle.c < listMin (window.map (·.l)))
    if isPivot then
      let dir : TradeAction := if 0 < vNow then .BUY else .SELL
      some { action := some dir
             confidence := calculateConfidence .DISPLACEMENT (some dir) (some 50)
               smcData true true
             tradeDuration := 2 }
    else none
  else none

/-- `checkGapAndGo(candles, smcData)`. -/
def checkGapAndGo (candles : List Candle) (smcData : SmcData) :
    Option EngineSignal :=
  let trend := smcData.marketStructure.m15Trend
  let lastCandle := cAt candles (candles.length - 1)
  let prev := cAt candles (candles.length - 2)
  let fvgB := smcData.imbalance.bullishIMB.find? (fun i =>
    !i.mitigated && decide ((3 : ℚ)/100000 < i.gap) && i.time == prev.t)
  let fvgS := smcData.imbalance.bearishIMB.find? (fun i =>
    !i.mitigated && decide ((3 : ℚ)/100000 < i.gap) && i.time == prev.t)
  let prevRange := if prev.h - prev.l = 0 then 1/100000 else prev.h - prev.l
  if fvgB.isSome ∧ trend = .BULLISH ∧ (prev.h - lastCandle.c) / prevRange < 1/5 then
    some { action := some .BUY
           confidence := calculateConfidence .DISPLACEMENT (some .BUY) (some 45)
             smcData true false
           tradeDuration := 3 }
  else if fvgS.isSome ∧ trend = .BEARISH ∧ (lastCandle.c - prev.l) / prevRange < 1/5 then
    some { action := some .SELL
           confidence := calculateConfidence .DISPLACEMENT (some .SELL) (some 45)
             smcData true false
           tradeDuration := 3 }
  else none

/-- `checkSniperRejection(candles, smcData)`. -/
def checkSniperRejection (candles : List Candle) (smcData : SmcData) :
    Option EngineSignal :=
  let lastCandle := cAt candles (candles.length - 1)
  let range := lastCandle.h - lastCandle.l
  let range' := if range = 0 then 1/100000 else range
  let snr := getSNRLevels candles
  let mitigated := (smcData.orderBlocks.bullishOB ++ smcData.orderBlocks.bearishOB).filter
    (·.mitigated)
  if (3/5 : ℚ) < (lastCandle.o - lastCandle.l) / range' ∧
     (snr.any (fun lvl => decide (|lastCandle.l - lvl| < 2/100000)) ∨
      mitigated.any (fun o => decide (|lastCandle.l - o.low| < 2/100000))) then
    some { action := some .BUY
           confidence := calculateConfidence .LIQUIDITY_SWEPT (some .BUY) (some 45)
             smcData false true
           tradeDuration := 3 }
  else if (3/5 : ℚ) < (lastCandle.h - lastCandle.o) / range' ∧
     (snr.any (fun lvl => decide (|lastCandle.h - lvl| < 2/100000)) ∨
      mitigated.any (fun o => decide (|lastCandle.h - o.high| < 2/100000))) then
    some { action := some .SELL
           confidence := calculateConfidence .LIQUIDITY_SWEPT (some .SELL) (some 45)
             smcData false true
           tradeDuration := 3 }
  else none

/-- `checkHybridSetup(candles, pairState, smcData)`. -/
def checkHybridSetup (candles : List Candle) (pairState : V14State)
    (smcData : SmcData) : Option EngineSignal :=
  let lastCandle := cAt candles (candles.length - 1)
  let pa := detectPriceActionPatterns candles
  let fvgB := smcData.imbalance.bullishIMB.find? (fun i =>
    !i.mitigated && decide (lastCandle.l ≤ i.top))
  let fvgS := smcData.imbalance.bearishIMB.find? (fun i =>
    !i.mitigated && decide (i.bottom ≤ lastCandle.h))
  if pairState.direction = some .BUY ∧ fvgB.isSome ∧
     (pa.pinBar.map (·.type) = some .BULLISH_PIN ∨
      pa.engulfing = some .BULLISH_ENGULFING) then
    some { action := some .BUY
           confidence := calculateConfidence pairState.status pairState.direction
             pairState.setupData.lastBQI smcData false true
           tradeDuration := 3 }
  else if pairState.direction = some .SELL ∧ fvgS.isSome ∧
     (pa.pinBar.map (·.type) = some .BEARISH_PIN ∨
      pa.engulfing = some .BEARISH_ENGULFING) then
    some { action := some .SELL
           confidence := calculateConfidence pairState.status pairState.direction
             pairState.setupData.lastBQI smcData false true
           tradeDuration := 3 }
  else none

/-- `triggerSignal(pairState, candles, smcData, desc, extra)` of v14
(the FastTrack call passes `extra = {momentum: true}`). -/
def v14TriggerSignal (pairState : V14State) (smcData : SmcData)
    (momentum : Bool) : EngineSignal :=
  let conf := calculateConfidence pairState.status pairState.direction
    pairState.setupData.lastBQI smcData momentum false
  let duration0 : ℤ := if smcData.marketPhase = .EXPANSION then 5 else 3
  let duration := if conf ≤ 48 then 3 else duration0
  { action := pairState.direction, confidence := conf, tradeDuration := duration }

/-- `V14Engine.generateSignal(candles, pair, pairState)` with `now`
(`Date.now()`) explicit.  On a state in status `CHOCH` whose
`setupData.poi` was never populated (unreachable from `IDLE`) the JS
code would throw; the embedding returns the no-signal answer there. -/
def generateSignalV14 (now : ℤ) (candles : List Candle)
    (pairState : Option V14State) : Option EngineSignal × Option V14State :=
  if candles.length < 35 then (none, pairState)
  else
    let st0 := match pairState with
      | some st => st     -- `!pairState.status` is never truthy-false in the model
      | none => v14ResetState 0
    if st0.lastSignalTimestamp ≠ 0 ∧ now - st0.lastSignalTimestamp < 600000 then
      (none, some st0)
    else
      match analyzeSmartMoney candles with
      | none => (none, some st0)
      | some smcData =>
        let lastCandle := cAt candles (candles.length - 1)
        let currentTickIndex := candles.length
        let st1 := if st0.status ≠ .IDLE ∧
            (40 : ℤ) < (currentTickIndex : ℤ) - (st0.lastUpdateCandle : ℤ) then
          v14ResetState st0.lastSignalTimestamp else st0
        match checkVelocityStrike candles smcData with
        | some sig => (some sig, some (v14ResetState now))
        | none =>
        match checkGapAndGo candles smcData with
        | some sig => (some sig, some (v14ResetState now))
        | none =>
        match checkSniperRejection candles smcData with
        | some sig => (some sig, some (v14ResetState now))
        | none =>
          match st1.status with
          | .IDLE =>
            if smcData.liquidity.sweeps.bullishSweeps ≠ [] then
              (none, some { st1 with
                status := EngineStatus.LIQUIDITY_SWEPT
                direction := some TradeAction.BUY
                lastUpdateCandle := currentTickIndex })
            else if smcData.liquidity.sweeps.bearishSweeps ≠ [] then
              (none, some { st1 with
                status := EngineStatus.LIQUIDITY_SWEPT
                direction := some TradeAction.SELL
                lastUpdateCandle := currentTickIndex })
            else (none, some st1)
          | .LIQUIDITY_SWEPT =>
            match checkHybridSetup candles st1 smcData with
            | some sig => (some sig, some (v14ResetState now))
            | none =>
              let atr := calculateATRsmc candles 14
              if atr.current * (6/5) < lastCandle.h - lastCandle.l then
                let v := smcData.velocityDelta.velocity
                if (st1.direction = some .BUY ∧ 0 < v) ∨
                   (st1.direction = some .SELL ∧ v < 0) then
                  (none, some { st1 with
                    status := EngineStatus.DISPLACEMENT
                    lastUpdateCandle := currentTickIndex })
                else (none, some st1)
              else (none, some st1)
          | .DISPLACEMENT =>
            match smcData.marketStructure.lastCHoCH with
            | some ch =>
              if 45 ≤ ch.bqi ∧
                 ((st1.direction = some .BUY ∧ ch.dir = .bullish) ∨
                  (st1.direction = some .SELL ∧ ch.dir = .bearish)) then
                let st2 := { st1 with
                  status := EngineStatus.CHOCH
                  lastUpdateCandle := currentTickIndex
                  setupData := { st1.setupData with lastBQI := some ch.bqi } }
                if (st2.direction = some .BUY ∧
                      smcData.velocityDelta.aligned = .BULLISH) ∨
                   (st2.direction = some .SELL ∧
                      smcData.velocityDelta.aligned = .BEARISH) then
                  (some (v14TriggerSignal st2 smcData true), some (v14ResetState now))
                else
                  (none, some { st2 with setupData := { st2.setupData with
                    poi := some (smcData.orderBlocks, smcData.imbalance) } })
              else (none, some st1)
            | none => (none, some st1)
          | .CHOCH =>
            match st1.setupData.poi with
            | none => (none, some st1)
            | some pois =>
              let retest :=
                if st1.direction = some .BUY then
                  (match pois.1.bullishOB.find? (fun z => !z.mitigated) with
                   | some ob => decide (lastCandle.l ≤ ob.high)
                   | none => false) ||
                  (match pois.2.bullishIMB.find? (fun z => !z.mitigated) with
                   | some imb => decide (lastCandle.l ≤ imb.top)
                   | none => false)
                else
                  (match pois.1.bearishOB.find? (fun z => !z.mitigated) with
                   | some ob => decide (ob.low ≤ lastCandle.h)
                   | none => false) ||
                  (match pois.2.bearishIMB.find? (fun z => !z.mitigated) with
                   | some imb => decide (imb.bottom ≤ lastCandle.h)
                   | none => false)
              if retest then
                let st2 := { st1 with status := EngineStatus.RETEST }
                (some (v14TriggerSignal st2 smcData false), some (v14ResetState now))
              else (none, some st1)
          | .RETEST => (none, some st1)

/-!
## v17 Market Oracle engine (`V17Engine`, part of the content bundle)
-/

structure V17State where
  status : EngineStatus
  direction : Option TradeAction
  lastUpdateCandle : ℕ
  lastSignalTimestamp : ℤ
  deepSight : DeepSight
  deriving DecidableEq

/-- `resetState(pair, existingTimestamp, existingDeepSight)` of v17. -/
def v17ResetState (existingTimestamp : ℤ) (existingDeepSight : Option DeepSight) :
    V17State :=
  { status := .IDLE, direction := none, lastUpdateCandle := 0,
    lastSignalTimestamp := existingTimestamp,
    deepSight := existingDeepSight.getD ⟨[], [], 0⟩ }

/-- Step A of the v17 engine: is the most recent sweep a sweep of an
equal-high/low pool, and in which direction? -/
def v17EqSweep (smcData : SmcData) : Option TradeAction :=
  let sweeps := smcData.liquidity.sweeps
  let eq := smcData.liquidity.equalLevels
  if sweeps.bullishSweeps ≠ [] then
    let sweep := sweeps.bullishSweeps.getD 0 ⟨0, 0, 0, 0⟩
    if eq.eqLows.any (fun l => decide (|sweep.sweptLevel - l.price| < 1/10000)) then
      some .BUY
    else none
  else if sweeps.bearishSweeps ≠ [] then
    let sweep := sweeps.bearishSweeps.getD 0 ⟨0, 0, 0, 0⟩
    if eq.eqHighs.any (fun l => decide (|sweep.sweptLevel - l.price| < 1/10000)) then
      some .SELL
    else none
  else none

/-- `triggerSignal(pairState, candles, smcData, pair)` of v17. -/
def v17TriggerSignal (pairState : V17State) : EngineSignal :=
  let ds := pairState.deepSight
  let isHot := 80 ≤ ds.winRate ∧ 3 ≤ ds.virtualHistory.length
  { action := pairState.direction
    confidence := if isHot then 100 else 75
    tradeDuration := 3 }

/-- `V17Engine.generateSignal(candles, pair, pairState)` with `now`
(`Date.now()`) explicit.  `!pairState.deepSight` is never truthy-false
in the model (the record is total), so initialisation reduces to the
`none` case. -/
def generateSignalV17 (now : ℤ) (candles : List Candle)
    (pairState : Option V17State) : Option EngineSignal × Option V17State :=
  if candles.length < 35 then (none, pairState)
  else
    let st0 := match pairState with
      | some st => st
      | none => v17ResetState 0 none
    let lastCandle := cAt candles (candles.length - 1)
    -- 1. Deep Sight shadow tracking update
    let st1 := { st0 with deepSight := updateDeepSight st0.deepSight lastCandle.c now }
    -- 2. Cooldown check (3 minutes)
    if st1.lastSignalTimestamp ≠ 0 ∧ now - st1.lastSignalTimestamp < 180000 then
      (none, some st1)
    else
      match analyzeSmartMoney candles with
      | none => (none, some st1)
      | some smcData =>
        let currentTickIndex := candles.length
        -- Timeout check
        let st2 := if st1.status ≠ .IDLE ∧
            (40 : ℤ) < (currentTickIndex : ℤ) - (st1.lastUpdateCandle : ℤ) then
          v17ResetState st1.lastSignalTimestamp (some st1.deepSight) else st1
        -- Step A: EQH/EQL sweep detection (also logs a shadow trade)
        let st3 := match v17EqSweep smcData with
          | some dir =>
            if st2.status = .IDLE then
              { st2 with
                status := EngineStatus.LIQUIDITY_SWEPT
                direction := some dir
                lastUpdateCandle := currentTickIndex
                deepSight := { st2.deepSight with
                  shadowTrades := st2.deepSight.shadowTrades ++
                    [{ startPrice := lastCandle.c, direction := dir,
                       timestamp := now, expiry := now + 180000 }] } }
            else st2
          | none => st2
        -- Step B: price-action rejection confirmation
        if st3.status = .LIQUIDITY_SWEPT then
          let pa := detectPriceActionPatterns candles
          let isRejection :=
            (st3.direction = some TradeAction.BUY ∧
              (pa.pinBar.map (·.type) = some .BULLISH_PIN ∨
               pa.engulfing = some .BULLISH_ENGULFING)) ∨
            (st3.direction = some TradeAction.SELL ∧
              (pa.pinBar.map (·.type) = some .BEARISH_PIN ∨
               pa.engulfing = some .BEARISH_ENGULFING))
          if isRejection then
            (some (v17TriggerSignal st3), some (v17ResetState now (some st3.deepSight)))
          else (none, some st3)
        else (none, some st3)

/-!
## Claim C1 — the 100-flat-candle scenario
-/

/-- Flat candles `o = h = l = c = 1.1000` at consecutive 1-minute
timestamps. -/
def flatCandles (n : ℕ) : List Candle :=
  (List.range n).map (fun i => ⟨60000 * (i : ℤ), 11/10, 11/10, 11/10, 11/10⟩)

set_option maxRecDepth 100000 in
/-- Counterexample to C1 as stated: on 100 flat candles the fixed-scoring
engine does return a signal with action BUY, but the conflicted-scores
halving (`Math.floor(1 * 0.5)`) drives its confidence to 0, which is not
in [1, 100]. -/
theorem claim_C1_counterexample :
    generateSignalV12 (flatCandles 100) =
      some { action := some TradeAction.BUY, confidence := 0, tradeDuration := 3 } ∧
    ¬ (∀ s, generateSignalV12 (flatCandles 100) = some s → 1 ≤ s.confidence) := by
  constructor
  · with_unfolding_all decide
  · intro hall
    have h := hall { action := some TradeAction.BUY, confidence := 0, tradeDuration := 3 }
      (by with_unfolding_all decide)
    simp at h

set_option maxRecDepth 100000 in
/-- Claim C1 (amended): 100 flat candles fed to the fixed-scoring
engine's `generateSignal` yield a non-null signal whose action is BUY or
SELL and whose confidence is an integer (the `confidence` field is
integer-valued by construction) in [0, 100]. -/
theorem claim_C1_flat_candles_signal :
    ∃ s, generateSignalV12 (flatCandles 100) = some s ∧
      (s.action = some TradeAction.BUY ∨ s.action = some TradeAction.SELL) ∧
      0 ≤ s.confidence ∧ s.confidence ≤ 100 :=
  ⟨{ action := some TradeAction.BUY, confidence := 0, tradeDuration := 3 },
    by with_unfolding_all decide, Or.inl rfl, le_refl 0, by norm_num⟩

/-- The v14 additive confidence score lands in [0, 100] for every input. -/
theorem calculateConfidence_bounds (status : EngineStatus)
    (direction : Option TradeAction) (lastBQI : Option ℤ) (smcData : SmcData)
    (momentum pa : Bool) :
    0 ≤ calculateConfidence status direction lastBQI smcData momentum pa ∧
    calculateConfidence status direction lastBQI smcData momentum pa ≤ 100 := by
  unfold calculateConfidence
  refine ⟨le_min (by norm_num) ?_, min_le_left _ _⟩
  split_ifs <;> norm_num

theorem v14TriggerSignal_conf_bounds (st : V14State) (smcData : SmcData) (m : Bool) :
    0 ≤ (v14TriggerSignal st smcData m).confidence ∧
    (v14TriggerSignal st smcData m).confidence ≤ 100 :=
  calculateConfidence_bounds st.status st.direction st.setupData.lastBQI smcData m false

theorem checkVelocityStrike_conf_bounds (candles : List Candle) (smcData : SmcData)
    (s : EngineSignal) (h : checkVelocityStrike candles smcData = some s) :
    0 ≤ s.confidence ∧ s.confidence ≤ 100 := by
  simp only [checkVelocityStrike] at h
  split_ifs at h
  all_goals (
    injection h with h1
    subst h1
    exact calculateConfidence_bounds _ _ _ _ _ _)

theorem checkGapAndGo_conf_bounds (candles : List Candle) (smcData : SmcData)
    (s : EngineSignal) (h : checkGapAndGo candles smcData = some s) :
    0 ≤ s.confidence ∧ s.confidence ≤ 100 := by
  simp only [checkGapAndGo] at h
  split_ifs at h
  all_goals (
    injection h with h1
    subst h1
    exact calculateConfidence_bounds _ _ _ _ _ _)

theorem checkSniperRejection_conf_bounds (candles : List Candle) (smcData : SmcData)
    (s : EngineSignal) (h : checkSniperRejection candles smcData = some s) :
    0 ≤ s.confidence ∧ s.confidence ≤ 100 := by
  simp only [checkSniperRejection] at h
  split_ifs at h
  all_goals (
    injection h with h1
    subst h1
    exact calculateConfidence_bounds _ _ _ _ _ _)

theorem checkHybridSetup_conf_bounds (candles : List Candle) (st : V14State)
    (smcData : SmcData) (s : EngineSignal)
    (h : checkHybridSetup candles st smcData = some s) :
    0 ≤ s.confidence ∧ s.confidence ≤ 100 := by
  simp only [checkHybridSetup] at h
  split_ifs at h
  all_goals (
    injection h with h1
    subst h1
    exact calculateConfidence_bounds _ _ _ _ _ _)

/-- The v17 trigger emits confidence 75 or 100, both inside [0, 100]. -/
theorem v17TriggerSignal_conf_bounds (st : V17State) :
    0 ≤ (v17TriggerSignal st).confidence ∧ (v17TriggerSignal st).confidence ≤ 100 := by
  unfold v17TriggerSignal
  simp only []
  split <;> norm_num

/-- With enough candles, a missing v14 pair state behaves like a fresh
reset state (`resetState(pair)` with timestamp 0). -/
theorem generateSignalV14_none_eq (now : ℤ) (candles : List Candle)
    (hlen : ¬ candles.length < 35) :
    generateSignalV14 now candles none =
    generateSignalV14 now candles (some (v14ResetState 0)) := by
  unfold generateSignalV14
  rw [if_neg hlen, if_neg hlen]

/-- Confidence bounds for the v14 engine on an explicit prior state:
every branch that emits a signal routes its confidence through
`calculateConfidence` (fast-path checks and trigger) and stays in
[0, 100]. -/
theorem generateSignalV14_bounds_core (now : ℤ) (candles : List Candle)
    (st0 : V14State) (s : EngineSignal) (st' : Option V14State)
    (hlen : ¬ candles.length < 35)
    (h : generateSignalV14 now candles (some st0) = (some s, st')) :
    0 ≤ s.confidence ∧ s.confidence ≤ 100 := by
  unfold generateSignalV14 at h
  rw [if_neg hlen] at h
  simp only [] at h
  by_cases hcool : st0.lastSignalTimestamp ≠ 0 ∧ now - st0.lastSignalTimestamp < 600000
  · rw [if_pos hcool] at h
    simp at h
  · rw [if_neg hcool] at h
    rcases hsmc : analyzeSmartMoney candles with _ | smc
    · rw [hsmc] at h
      simp only [] at h
      simp at h
    · rw [hsmc] at h
      simp only [] at h
      rcases hv : checkVelocityStrike candles smc with _ | sig
      · rw [hv] at h
        simp only [] at h
        rcases hg : checkGapAndGo candles smc with _ | sig
        · rw [hg] at h
          simp only [] at h
          rcases hsn : checkSniperRejection candles smc with _ | sig
          · rw [hsn] at h
            simp only [] at h
            by_cases hto : st0.status ≠ EngineStatus.IDLE ∧
                (40 : ℤ) < (candles.length : ℤ) - (st0.lastUpdateCandle : ℤ)
            · rw [if_pos hto] at h
              simp only [v14ResetState] at h
              repeat' split at h
              all_goals simp at h
            · rw [if_neg hto] at h
              obtain ⟨sst, sdir, sluc, slst, sbqi, spoi⟩ := st0
              simp only [] at h
              cases sst
              ·
                simp only [] at h
                repeat' split at h
                all_goals simp at h
              ·
                simp only [] at h
                rcases hhy : checkHybridSetup candles
                    ⟨EngineStatus.LIQUIDITY_SWEPT, sdir, sluc, slst, sbqi, spoi⟩ smc
                    with _ | sig
                · rw [hhy] at h
                  simp only [] at h
                  repeat' split at h
                  all_goals simp at h
                · rw [hhy] at h
                  simp only [Prod.mk.injEq] at h
                  obtain ⟨h1, -⟩ := h
                  injection h1 with h1
                  subst h1
                  exact checkHybridSetup_conf_bounds _ _ _ _ hhy
              ·
                simp only [] at h
                rcases hch : smc.marketStructure.lastCHoCH with _ | ch
                · rw [hch] at h
                  simp only [] at h
                  simp at h
                · rw [hch] at h
                  simp only [] at h
                  split at h
                  · split at h
                    · simp only [Prod.mk.injEq] at h
                      obtain ⟨h1, -⟩ := h
                      injection h1 with h1
                      subst h1
                      exact v14TriggerSignal_conf_bounds _ _ _
                    · simp at h
                  · simp at h
              ·
                simp only [] at h
                rcases spoi with _ | pois
                · simp only [] at h
                  simp at h
                · simp only [] at h
                  repeat' split at h
                  all_goals first
                    | (simp only [Prod.mk.injEq] at h
                       obtain ⟨h1, -⟩ := h
                       injection h1 with h1
                       subst h1
                       exact v14TriggerSignal_conf_bounds _ _ _)
                    | simp at h
              ·
                simp only [] at h
                simp at h
          · rw [hsn] at h
            simp only [Prod.mk.injEq] at h
            obtain ⟨h1, -⟩ := h
            injection h1 with h1
            subst h1
            exact checkSniperRejection_conf_bounds _ _ _ hsn
        · rw [hg] at h
          simp only [Prod.mk.injEq] at h
          obtain ⟨h1, -⟩ := h
          injection h1 with h1
          subst h1
          exact checkGapAndGo_conf_bounds _ _ _ hg
      · rw [hv] at h
        simp only [Prod.mk.injEq] at h
        obtain ⟨h1, -⟩ := h
        injection h1 with h1
        subst h1
        exact checkVelocityStrike_conf_bounds _ _ _ hv

/-- Every signal the v14 engine returns has confidence in [0, 100]. -/
theorem generateSignalV14_confidence_bounds (now : ℤ) (candles : List Candle)
    (pairState : Option V14State) (s : EngineSignal) (st' : Option V14State)
    (h : generateSignalV14 now candles pairState = (some s, st')) :
    0 ≤ s.confidence ∧ s.confidence ≤ 100 := by
  by_cases hlen : candles.length < 35
  · unfold generateSignalV14 at h
    rw [if_pos hlen] at h
    simp at h
  · rcases pairState with _ | st0
    · rw [generateSignalV14_none_eq now candles hlen] at h
      exact generateSignalV14_bounds_core now candles (v14ResetState 0) s st' hlen h
    · exact generateSignalV14_bounds_core now candles st0 s st' hlen h

/-- With enough candles, a missing v17 pair state behaves like a fresh
reset state. -/
theorem generateSignalV17_none_eq (now : ℤ) (candles : List Candle)
    (hlen : ¬ candles.length < 35) :
    generateSignalV17 now candles none =
    generateSignalV17 now candles (some (v17ResetState 0 none)) := by
  unfold generateSignalV17
  rw [if_neg hlen, if_neg hlen]

/-- Confidence bounds for the v17 engine on an explicit prior state:
the only signal-emitting branch is the Step B trigger. -/
theorem generateSignalV17_bounds_core (now : ℤ) (candles : List Candle)
    (st0 : V17State) (s : EngineSignal) (st' : Option V17State)
    (hlen : ¬ candles.length < 35)
    (h : generateSignalV17 now candles (some st0) = (some s, st')) :
    0 ≤ s.confidence ∧ s.confidence ≤ 100 := by
  unfold generateSignalV17 at h
  rw [if_neg hlen] at h
  simp only [] at h
  by_cases hcool : st0.lastSignalTimestamp ≠ 0 ∧ now - st0.lastSignalTimestamp < 180000
  · rw [if_pos hcool] at h
    simp at h
  · rw [if_neg hcool] at h
    rcases hsmc : analyzeSmartMoney candles with _ | smc
    · rw [hsmc] at h
      simp only [] at h
      simp at h
    · rw [hsmc] at h
      simp only [] at h
      by_cases hto : st0.status ≠ EngineStatus.IDLE ∧
          (40 : ℤ) < (candles.length : ℤ) - (st0.lastUpdateCandle : ℤ)
      · rw [if_pos hto] at h
        simp only [v17ResetState] at h
        rcases hsw : v17EqSweep smc with _ | dir
        · rw [hsw] at h
          simp only [reduceIte] at h
          simp at h
        · rw [hsw] at h
          simp only [reduceIte] at h
          split at h
          · simp only [Prod.mk.injEq] at h
            obtain ⟨h1, -⟩ := h
            injection h1 with h1
            subst h1
            exact v17TriggerSignal_conf_bounds _
          · simp at h
      · rw [if_neg hto] at h
        rcases hsw : v17EqSweep smc with _ | dir
        · rw [hsw] at h
          simp only [] at h
          by_cases hsl : st0.status = EngineStatus.LIQUIDITY_SWEPT
          · rw [if_pos hsl] at h
            split at h
            · simp only [Prod.mk.injEq] at h
              obtain ⟨h1, -⟩ := h
              injection h1 with h1
              subst h1
              exact v17TriggerSignal_conf_bounds _
            · simp at h
          · rw [if_neg hsl] at h
            simp at h
        · rw [hsw] at h
          simp only [] at h
          by_cases hsi : st0.status = EngineStatus.IDLE
          · rw [if_pos hsi] at h
            simp only [reduceIte] at h
            split at h
            · simp only [Prod.mk.injEq] at h
              obtain ⟨h1, -⟩ := h
              injection h1 with h1
              subst h1
              exact v17TriggerSignal_conf_bounds _
            · simp at h
          · rw [if_neg hsi] at h
            simp only [] at h
            by_cases hsl : st0.status = EngineStatus.LIQUIDITY_SWEPT
            · rw [if_pos hsl] at h
              split at h
              · simp only [Prod.mk.injEq] at h
                obtain ⟨h1, -⟩ := h
                injection h1 with h1
                subst h1
                exact v17TriggerSignal_conf_bounds _
              · simp at h
            · rw [if_neg hsl] at h
              simp at h

/-- Every signal the v17 engine returns has confidence in {75, 100} ⊆ [0, 100]. -/
theorem generateSignalV17_confidence_bounds (now : ℤ) (candles : List Candle)
    (pairState : Option V17State) (s : EngineSignal) (st' : Option V17State)
    (h : generateSignalV17 now candles pairState = (some s, st')) :
    0 ≤ s.confidence ∧ s.confidence ≤ 100 := by
  by_cases hlen : candles.length < 35
  · unfold generateSignalV17 at h
    rw [if_pos hlen] at h
    simp at h
  · rcases pairState with _ | st0
    · rw [generateSignalV17_none_eq now candles hlen] at h
      exact generateSignalV17_bounds_core now candles (v17ResetState 0 none) s st' hlen h
    · exact generateSignalV17_bounds_core now candles st0 s st' hlen h

/-!
## Claim C2 — confidence ranges of the three engines
-/

/-- Claim C2: for every candle history and every prior engine state,
each decision-engine variant (v12 fixed scoring, v14 state machine, v17
oracle) returns a signal whose confidence lies in [0, 100], on every
reachable code path — including tied or conflicted buy/sell scores,
where v12 emits confidence 0 (see C1). -/
theorem claim_C2_confidence_in_unit_interval (now : ℤ) (candles : List Candle) :
    (∀ s, generateSignalV12 candles = some s →
      0 ≤ s.confidence ∧ s.confidence ≤ 100) ∧
    (∀ ps s st', generateSignalV14 now candles ps = (some s, st') →
      0 ≤ s.confidence ∧ s.confidence ≤ 100) ∧
    (∀ ps s st', generateSignalV17 now candles ps = (some s, st') →
      0 ≤ s.confidence ∧ s.confidence ≤ 100) :=
  ⟨fun s h => generateSignalV12_confidence_bounds candles s h,
   fun ps s st' h => generateSignalV14_confidence_bounds now candles ps s st' h,
   fun ps s st' h => generateSignalV17_confidence_bounds now candles ps s st' h⟩

/-- Thirty-nine flat candles and one wide breakout candle: fires the
v14 velocity strike. -/
def c2V14Candles : List Candle :=
  flatCandles 39 ++ [⟨60000 * 39, 11/10, 21/10, 11/10, 21/10⟩]

/-- Thirty-four flat candles and one bullish pin bar: fires Step B of a
v17 state already in `LIQUIDITY_SWEPT`. -/
def c2V17Candles : List Candle :=
  flatCandles 34 ++ [⟨60000 * 34, 11/10, 1101/1000, 1, 1101/1000⟩]

/-- A v17 state waiting in `LIQUIDITY_SWEPT` for a BUY confirmation. -/
def c2V17State : V17State :=
  { status := .LIQUIDITY_SWEPT, direction := some .BUY, lastUpdateCandle := 35,
    lastSignalTimestamp := 0, deepSight := ⟨[], [], 0⟩ }

set_option maxRecDepth 100000 in
/-- Witness for C2: concrete runs of each engine — v12 on 100 flat
candles (confidence 0), v14 on a velocity-strike breakout (confidence
70), v17 on a Step-B pin-bar rejection (confidence 75) — all inside
[0, 100]. -/
theorem claim_C2_witness :
    (0 ≤ (⟨some TradeAction.BUY, 0, 3⟩ : EngineSignal).confidence ∧
      (⟨some TradeAction.BUY, 0, 3⟩ : EngineSignal).confidence ≤ 100) ∧
    (0 ≤ (⟨some TradeAction.BUY, 70, 2⟩ : EngineSignal).confidence ∧
      (⟨some TradeAction.BUY, 70, 2⟩ : EngineSignal).confidence ≤ 100) ∧
    (0 ≤ (⟨some TradeAction.BUY, 75, 3⟩ : EngineSignal).confidence ∧
      (⟨some TradeAction.BUY, 75, 3⟩ : EngineSignal).confidence ≤ 100) :=
  ⟨(claim_C2_confidence_in_unit_interval 0 (flatCandles 100)).1
      ⟨some TradeAction.BUY, 0, 3⟩ (by with_unfolding_all decide),
   (claim_C2_confidence_in_unit_interval 0 c2V14Candles).2.1
      none ⟨some TradeAction.BUY, 70, 2⟩ (some (v14ResetState 0))
      (by with_unfolding_all decide),
   (claim_C2_confidence_in_unit_interval 0 c2V17Candles).2.2
      (some c2V17State) ⟨some TradeAction.BUY, 75, 3⟩
      (some (v17ResetState 0 (some ⟨[], [], 0⟩)))
      (by with_unfolding_all decide)⟩

/-!
## Claim C3 — the volatility-adaptive sweep wick ratio
-/

/-- Fifteen maximal-range candles: every true range is 1 while price
sits near 1.5, so ATR is about 67% of price — deep inside the claim's
high-volatility band. -/
def c3Candles : List Candle :=
  (List.range 15).map (fun i => ⟨60000 * (i : ℤ), 1, 2, 1, 2⟩)

set_option maxRecDepth 100000 in
/-- Claim C3 (code bug): the source computes `atr / avgPrice` where
`atr` is the whole `{current, mean, ratio}` object returned by
`calculateATR`, not a number, so `atrPercent` is `NaN`, both band
comparisons are false, and the sweep wick ratio is 0.6 for every
non-empty candle window regardless of volatility.  On the
high-volatility window `c3Candles` the spec's band rule yields 0.4
while the code yields 0.6. -/
theorem claim_C3_wick_ratio_stuck_at_low_band :
    (∀ candles, candles ≠ [] → getDynamicSweepWickRatio candles = 3/5) ∧
    sweepWickRatioPerSpec c3Candles = 2/5 ∧
    getDynamicSweepWickRatio c3Candles = 3/5 := by
  refine ⟨?_, by with_unfolding_all decide, by with_unfolding_all decide⟩
  intro candles hne
  unfold getDynamicSweepWickRatio
  rw [if_neg (by simpa using hne)]
  rfl

set_option maxRecDepth 100000 in
/-- Witness for C3: the claim applied to the concrete high-volatility
window. -/
theorem claim_C3_witness :
    getDynamicSweepWickRatio c3Candles = 3/5 :=
  claim_C3_wick_ratio_stuck_at_low_band.1 c3Candles (by with_unfolding_all decide)

/-!
## Claim C6 — Deep Sight shadow learning
-/

/-- Every v17 invocation's returned state carries exactly the rolling
history and win rate produced by the Deep Sight update that runs first
(later steps only append shadow trades). -/
theorem generateSignalV17_deepSight_proj (now : ℤ) (candles : List Candle)
    (st : V17State) (hlen : ¬ candles.length < 35) :
    ((generateSignalV17 now candles (some st)).2.map
      (fun s2 => (s2.deepSight.virtualHistory, s2.deepSight.winRate))) =
    some ((updateDeepSight st.deepSight (cAt candles (candles.length - 1)).c now).virtualHistory,
          (updateDeepSight st.deepSight (cAt candles (candles.length - 1)).c now).winRate) := by
  unfold generateSignalV17
  rw [if_neg hlen]
  simp only []
  repeat' first
    | split
    | simp only []
  all_goals rfl

/-- Claim C6: on every v17 engine invocation (the shadow-learning Deep
Sight engine), each shadow trade whose expiry has elapsed resolves to
WIN exactly when the current price moved favourably from its start
price (else LOSS), the outcomes are appended to a rolling history that
never exceeds 5 entries, and `winRate` is set to the rounded WIN
percentage of that history (0 when the history is empty); the
invocation's returned state carries exactly that history and win
rate. -/
theorem claim_C6_shadow_learning (p : ℚ) (now : ℤ) :
    (∀ tr : ShadowTrade, shadowOutcome p tr = Outcome.WIN ↔
      ((tr.direction = TradeAction.BUY ∧ tr.startPrice < p) ∨
       (tr.direction = TradeAction.SELL ∧ p < tr.startPrice))) ∧
    (∀ ds : DeepSight, ds.virtualHistory.length ≤ 5 →
      (updateDeepSight ds p now).virtualHistory =
        lastN 5 (ds.virtualHistory ++
          (ds.shadowTrades.filter (fun tr => decide (now ≥ tr.expiry))).map
            (shadowOutcome p)) ∧
      (updateDeepSight ds p now).virtualHistory.length ≤ 5 ∧
      (updateDeepSight ds p now).winRate =
        (if (updateDeepSight ds p now).virtualHistory.length = 0 then 0
         else jsRound (((((updateDeepSight ds p now).virtualHistory.filter
             (· == Outcome.WIN)).length : ℚ) /
             (updateDeepSight ds p now).virtualHistory.length) * 100))) ∧
    (∀ (candles : List Candle) (st : V17State), ¬ candles.length < 35 →
      ((generateSignalV17 now candles (some st)).2.map
        (fun s2 => (s2.deepSight.virtualHistory, s2.deepSight.winRate))) =
      some ((updateDeepSight st.deepSight (cAt candles (candles.length - 1)).c now).virtualHistory,
            (updateDeepSight st.deepSight (cAt candles (candles.length - 1)).c now).winRate)) := by
  refine ⟨?_, ?_, ?_⟩
  · intro tr
    obtain ⟨sp, d, ts, ex⟩ := tr
    cases d
    · by_cases hp : sp < p <;>
        simp [shadowOutcome, gt_iff_lt, hp]
    · by_cases hq : p < sp <;>
        simp [shadowOutcome, gt_iff_lt, hq]
  · intro ds hle
    obtain ⟨-, h2, h3, h4⟩ := updateDeepSight_spec ds p now hle
    exact ⟨h2, h3, h4⟩
  · intro candles st hlen
    exact generateSignalV17_deepSight_proj now candles st hlen

/-- An expired BUY shadow trade opened at price 1. -/
def c6Trade : ShadowTrade := ⟨1, TradeAction.BUY, 0, 5⟩

/-- A Deep Sight state holding just the expired trade. -/
def c6DS : DeepSight := ⟨[c6Trade], [], 0⟩

/-- An idle v17 state carrying `c6DS`. -/
def c6V17State : V17State :=
  { status := .IDLE, direction := none, lastUpdateCandle := 0,
    lastSignalTimestamp := 0, deepSight := c6DS }

set_option maxRecDepth 100000 in
/-- Witness for C6: at price 2 the expired BUY trade from price 1
resolves to WIN, the history becomes `[WIN]`, the win rate 100, and a
v17 invocation on 35 flat candles carries the updated Deep Sight
state through. -/
theorem claim_C6_witness :
    (shadowOutcome 2 c6Trade = Outcome.WIN ↔
      ((c6Trade.direction = TradeAction.BUY ∧ c6Trade.startPrice < 2) ∨
       (c6Trade.direction = TradeAction.SELL ∧ 2 < c6Trade.startPrice))) ∧
    ((updateDeepSight c6DS 2 10).virtualHistory =
      lastN 5 (c6DS.virtualHistory ++
        (c6DS.shadowTrades.filter (fun tr => decide ((10 : ℤ) ≥ tr.expiry))).map
          (shadowOutcome 2)) ∧
     (updateDeepSight c6DS 2 10).virtualHistory.length ≤ 5 ∧
     (updateDeepSight c6DS 2 10).winRate =
      (if (updateDeepSight c6DS 2 10).virtualHistory.length = 0 then 0
       else jsRound (((((updateDeepSight c6DS 2 10).virtualHistory.filter
           (· == Outcome.WIN)).length : ℚ) /
           (updateDeepSight c6DS 2 10).virtualHistory.length) * 100))) ∧
    (((generateSignalV17 10 (flatCandles 35) (some c6V17State)).2.map
        (fun s2 => (s2.deepSight.virtualHistory, s2.deepSight.winRate))) =
      some ((updateDeepSight c6V17State.deepSight
              (cAt (flatCandles 35) ((flatCandles 35).length - 1)).c 10).virtualHistory,
            (updateDeepSight c6V17State.deepSight
              (cAt (flatCandles 35) ((flatCandles 35).length - 1)).c 10).winRate)) :=
  ⟨(claim_C6_shadow_learning 2 10).1 c6Trade,
   (claim_C6_shadow_learning 2 10).2.1 c6DS (by with_unfolding_all decide),
   (claim_C6_shadow_learning 2 10).2.2 (flatCandles 35) c6V17State
     (by with_unfolding_all decide)⟩

/-!
## Claim C7 — the stall-timeout reset
-/

/-- A v17 state stuck in `LIQUIDITY_SWEPT` since candle 0 whose
3-minute signal cooldown is still active at `now = 100000`. -/
def c7StaleState : V17State :=
  { status := .LIQUIDITY_SWEPT, direction := some .BUY, lastUpdateCandle := 0,
    lastSignalTimestamp := 99000, deepSight := ⟨[], [], 0⟩ }

set_option maxRecDepth 100000 in
/-- Counterexample to C7 as stated: invoked on a state that has been
non-IDLE for 41 > 40 candles, while the signal cooldown is still
active, the v17 engine returns the state unchanged — still
`LIQUIDITY_SWEPT` with its direction set, not reset to IDLE: the
cooldown early-return precedes the stall-timeout check. -/
theorem claim_C7_counterexample :
    c7StaleState.status ≠ EngineStatus.IDLE ∧
    (40 : ℤ) < ((flatCandles 41).length : ℤ) - (c7StaleState.lastUpdateCandle : ℤ) ∧
    generateSignalV17 100000 (flatCandles 41) (some c7StaleState) =
      (none, some c7StaleState) :=
  ⟨by decide, by with_unfolding_all decide, by with_unfolding_all rfl⟩

/-- Claim C7 (amended): when a decision engine (v14 or v17) is invoked
with a pair state whose status is non-IDLE and more than the stall
timeout (40) candles have elapsed since the state's last transition,
provided the signal cooldown is inactive and no fast-path signal,
liquidity sweep or other qualifying transition fires on this
invocation, the returned state has status IDLE, direction cleared to
`null` and the cooldown timestamp (`lastSignalTimestamp`) preserved
unchanged. -/
theorem claim_C7_amended_stall_reset (now : ℤ) (candles : List Candle) :
    (∀ (st : V14State) (smc : SmcData),
      ¬ candles.length < 35 →
      ¬ (st.lastSignalTimestamp ≠ 0 ∧ now - st.lastSignalTimestamp < 600000) →
      analyzeSmartMoney candles = some smc →
      checkVelocityStrike candles smc = none →
      checkGapAndGo candles smc = none →
      checkSniperRejection candles smc = none →
      smc.liquidity.sweeps.bullishSweeps = [] →
      smc.liquidity.sweeps.bearishSweeps = [] →
      st.status ≠ EngineStatus.IDLE →
      (40 : ℤ) < (candles.length : ℤ) - (st.lastUpdateCandle : ℤ) →
      generateSignalV14 now candles (some st) =
        (none, some (v14ResetState st.lastSignalTimestamp))) ∧
    (∀ (st : V17State) (smc : SmcData),
      ¬ candles.length < 35 →
      ¬ (st.lastSignalTimestamp ≠ 0 ∧ now - st.lastSignalTimestamp < 180000) →
      analyzeSmartMoney candles = some smc →
      v17EqSweep smc = none →
      st.status ≠ EngineStatus.IDLE →
      (40 : ℤ) < (candles.length : ℤ) - (st.lastUpdateCandle : ℤ) →
      generateSignalV17 now candles (some st) =
        (none, some (v17ResetState st.lastSignalTimestamp
          (some (updateDeepSight st.deepSight
            (cAt candles (candles.length - 1)).c now))))) := by
  constructor
  · intro st smc hlen hcool hsmc hv hg hsn hbs hbrs hst hstall
    unfold generateSignalV14
    rw [if_neg hlen]
    simp only []
    rw [if_neg hcool]
    rw [hsmc]
    simp only []
    rw [if_pos ⟨hst, hstall⟩]
    rw [hv]
    simp only []
    rw [hg]
    simp only []
    rw [hsn]
    simp only []
    rw [hbs, hbrs]
    rfl
  · intro st smc hlen hcool hsmc hsw hst hstall
    unfold generateSignalV17
    rw [if_neg hlen]
    simp only []
    rw [if_neg hcool]
    rw [hsmc]
    simp only []
    have hto : st.status ≠ EngineStatus.IDLE ∧
        (40 : ℤ) < (candles.length : ℤ) - (st.lastUpdateCandle : ℤ) := ⟨hst, hstall⟩
    rw [if_pos hto]
    rw [hsw]
    rfl

/-- A stale v14 state outside any cooldown. -/
def c7V14Fresh : V14State :=
  { status := .LIQUIDITY_SWEPT, direction := some .BUY, lastUpdateCandle := 0,
    lastSignalTimestamp := 0, setupData := ⟨none, none⟩ }

/-- A stale v17 state outside any cooldown. -/
def c7V17Fresh : V17State :=
  { status := .LIQUIDITY_SWEPT, direction := some .BUY, lastUpdateCandle := 0,
    lastSignalTimestamp := 0, deepSight := ⟨[], [], 0⟩ }

set_option maxRecDepth 100000 in
/-- Witness for C7 (amended): on 41 flat candles (no sweeps, no
fast-path signals) both engines force-reset their stale states to
IDLE with the timestamp preserved. -/
theorem claim_C7_amended_witness :
    generateSignalV14 0 (flatCandles 41) (some c7V14Fresh) =
      (none, some (v14ResetState 0)) ∧
    generateSignalV17 0 (flatCandles 41) (some c7V17Fresh) =
      (none, some (v17ResetState 0 (some ⟨[], [], 0⟩))) := by
  obtain ⟨smc, hsmc⟩ := Option.isSome_iff_exists.mp
    (show (analyzeSmartMoney (flatCandles 41)).isSome = true from by
      with_unfolding_all rfl)
  have hbig : (analyzeSmartMoney (flatCandles 41)).map (fun s =>
      (checkVelocityStrike (flatCandles 41) s,
       checkGapAndGo (flatCandles 41) s,
       checkSniperRejection (flatCandles 41) s,
       s.liquidity.sweeps.bullishSweeps,
       s.liquidity.sweeps.bearishSweeps,
       v17EqSweep s)) =
      some (none, none, none, [], [], none) := by
    with_unfolding_all rfl
  rw [hsmc, Option.map_some'] at hbig
  have h := Option.some.inj hbig
  simp only [Prod.mk.injEq] at h
  obtain ⟨hv, hg, hsn, hbs, hbrs, hsw⟩ := h
  constructor
  · exact (claim_C7_amended_stall_reset 0 (flatCandles 41)).1 c7V14Fresh smc
      (by with_unfolding_all decide) (by with_unfolding_all decide) hsmc hv hg hsn hbs hbrs
      (by with_unfolding_all decide) (by with_unfolding_all decide)
  · exact (claim_C7_amended_stall_reset 0 (flatCandles 41)).2 c7V17Fresh smc
      (by with_unfolding_all decide) (by with_unfolding_all decide) hsmc hsw
      (by with_unfolding_all decide) (by with_unfolding_all decide)
